import Mathlib

/-!
# dde-daemon display: pending configuration and reconciliation

A shallow embedding of `display/apply.go`.

* Go pointers to `pendingConfig` become values that are passed and returned.
* A Go `panic` becomes `Res.panic`, which carries the state reached when the
  panic was raised (receivers are pointers, so writes made before a panic
  stay visible to whoever recovers).
* The X server is an oracle over the history of requests sent so far; every
  request a function sends is pushed on that history (newest first).
* Fixed width integers are `Nat`/`Int` with explicit wrap-around.
* `float32`/`float64` arithmetic, `double2fixed`, `calcBound` and
  `queryOutput` are fields of `Env`: the theorems hold for every
  interpretation of them, IEEE-754 included.
-/

namespace DDE

/-! ## Machine integers -/

/-- Conversion to `uint16`: reduction modulo 2^16. -/
def toUInt16 (z : Int) : Nat := (z % 65536).toNat

/-- Conversion to `int16`: two's complement wrap-around into [-32768, 32767]. -/
def toInt16 (z : Int) : Int := (z + 32768) % 65536 - 32768

/-! ## Data model -/

/-- The type `render.Transform`: a 3x3 matrix of 16.16 fixed-point entries. -/
structure Transform where
  Matrix11 : Int
  Matrix12 : Int
  Matrix13 : Int
  Matrix21 : Int
  Matrix22 : Int
  Matrix23 : Int
  Matrix31 : Int
  Matrix32 : Int
  Matrix33 : Int
  deriving DecidableEq, Repr

/-- The type `xproto.Rectangle`. -/
structure Rectangle where
  X : Int
  Y : Int
  Width : Nat
  Height : Nat
  deriving DecidableEq, Repr

/-- The fields of `randr.ModeInfo` that `apply.go` reads. -/
structure ModeInfo where
  Width : Nat
  Height : Nat
  deriving DecidableEq, Repr

def _PendingMaskMode : Nat := 1
def _PendingMaskPos : Nat := 2
def _PendingMaskTransform : Nat := 4
def _PendingMaskRotation : Nat := 8
def _PendingMaskGramma : Nat := 16

def EnsureSizeHintAuto : Nat := 0
def EnsureSizeHintPanning : Nat := 1
def EnsureSizeHintScale : Nat := 2

/-- The function `min` on `uint16`. -/
def min (a b : Nat) : Nat := if a < b then a else b

/-- The function `max` on `uint16`. -/
def max (a b : Nat) : Nat := if a > b then a else b

/-- The struct `pendingConfig`. The mask is only ever built by or-ing the five
`_PendingMask` constants into zero, so it is modelled as a natural number. -/
structure pendingConfig where
  crtc : Nat := 0
  output : Nat := 0
  mask : Nat := 0
  mode : Nat := 0
  posX : Int := 0
  posY : Int := 0
  rotation : Nat := 0
  transform : Transform := ⟨0, 0, 0, 0, 0, 0, 0, 0, 0⟩
  filterName : String := ""
  filterParams : List Int := []
  borderCompensationX : Nat := 0
  borderCompensationY : Nat := 0
  gammaRed : List Nat := []
  gammaGreen : List Nat := []
  gammaBlue : List Nat := []
  deriving DecidableEq, Repr

/-- The fields of `Output` that `apply.go` reads and writes. `ModeID` is
`op.Mode.ID` and `ListModes` holds the ids of the modes `op.ListModes()` returns. -/
structure Output where
  Name : String := ""
  Identify : Nat := 0
  crtc : Nat := 0
  ModeID : Nat := 0
  ListModes : List Nat := []
  bestMode : Nat := 0
  Opened : Bool := false
  Allocation : Rectangle := ⟨0, 0, 0, 0⟩
  Rotation : Nat := 0
  Reflect : Nat := 0
  pendingConfig : Option DDE.pendingConfig := none
  savedConfig : Option DDE.pendingConfig := none
  deriving DecidableEq, Repr

/-- The fields of `Display` that `apply.go` reads and writes, with the globals
`LastConfigTimeStamp` and `Root`. Outputs are referred to by their index in
`Outputs`, so `MirrorOutput` and `PrimaryOutput` hold an index instead of a
pointer; `modes` maps a missing id to the zero `ModeInfo`, as the Go map does. -/
structure Display where
  Outputs : List Output
  MirrorOutput : Option Nat
  MirrorMode : Bool
  PrimaryOutput : Option Nat
  Width : Nat
  Height : Nat
  modes : Nat → ModeInfo
  LastConfigTimeStamp : Nat
  Root : Nat

/-! ## The X server -/

/-- Everything `apply.go` sends to the outside: X requests, and the pause and
resumption of event delivery. -/
inductive Request where
  | GrabServer
  | UngrabServer
  | GetCrtcInfo (crtc ts : Nat)
  | GetCrtcTransform (crtc : Nat)
  | GetOutputInfo (output ts : Nat)
  | SetCrtcConfig (crtc ts cts : Nat) (x y : Int) (mode rotation : Nat) (outputs : List Nat)
  | SetCrtcGamma (crtc size : Nat) (red green blue : List Nat)
  | SetCrtcTransform (crtc : Nat) (t : Transform) (nameLen : Nat) (filterName : String)
      (params : List Int)
  | SetOutputPrimary (root output : Nat)
  | SetScreenSize (width height : Nat)
  | stopListen
  | startListen
  deriving DecidableEq, Repr

/-- The requests that change the hardware configuration. -/
def Request.isWrite : Request → Bool
  | .SetCrtcConfig .. => true
  | .SetCrtcGamma .. => true
  | .SetCrtcTransform .. => true
  | .SetOutputPrimary .. => true
  | .SetScreenSize .. => true
  | _ => false

/-- The reply `randr.GetCrtcInfoReply`. -/
structure CrtcInfo where
  X : Int
  Y : Int
  Width : Nat
  Height : Nat
  Mode : Nat
  Rotation : Nat
  deriving DecidableEq, Repr

/-- The reply `randr.GetCrtcTransformReply`. -/
structure CrtcTransform where
  CurrentTransform : Transform
  CurrentFilterName : String
  CurrentParams : List Int
  deriving DecidableEq, Repr

/-- The reply `randr.GetOutputInfoReply`. -/
structure OutputInfo where
  Crtcs : List Nat
  deriving DecidableEq, Repr

/-- The X server as seen from the client: for each query, given the requests
sent before it (newest first), the reply or `none` for a protocol error; for
each write, whether the server accepts it. -/
structure XServer where
  crtcInfo : List Request → Nat → Nat → Option CrtcInfo
  crtcTransform : List Request → Nat → Option CrtcTransform
  outputInfo : List Request → Nat → Nat → Option OutputInfo
  accepts : List Request → Request → Bool

/-- The value `xproto.TimeCurrentTime`. -/
def TimeCurrentTime : Nat := 0

/-! ## Results -/

/-- Outcome of a call that may panic: either it returns `a` in state `s`, or
it panics with `msg` having reached state `s`. -/
inductive Res (σ α : Type) where
  | ret (a : α) (s : σ)
  | panic (msg : String) (s : σ)
  deriving DecidableEq, Repr

/-- The state a call ends in, whether it returned or panicked. -/
def Res.state {σ α : Type} : Res σ α → σ
  | .ret _ s => s
  | .panic _ s => s

/-- Whether the call returned. -/
def Res.returned {σ α : Type} : Res σ α → Bool
  | .ret _ _ => true
  | .panic _ _ => false

/-! ## What the source file takes from elsewhere -/

/-- Floating point arithmetic of the Go runtime and the functions of the
package that are defined outside `apply.go`. -/
structure Env where
  /-- Go type `float32` -/
  F32 : Type
  /-- Go type `float64` -/
  F64 : Type
  /-- conversion `float32(x)` of a `uint16` -/
  ofUInt16 : Nat → F32
  /-- conversion `float32(x)` of an `int16` -/
  ofInt16 : Int → F32
  /-- constant `1` -/
  one : F32
  add32 : F32 → F32 → F32
  sub32 : F32 → F32 → F32
  mul32 : F32 → F32 → F32
  div32 : F32 → F32 → F32
  /-- comparison `==` -/
  eq32 : F32 → F32 → Bool
  /-- conversion `int16(f)` -/
  toInt16 : F32 → Int
  /-- conversion `float64(f)` -/
  toF64 : F32 → F64
  /-- constant `2` as a `float64` -/
  two64 : F64
  div64 : F64 → F64 → F64
  /-- function `math.Ceil` -/
  ceil : F64 → F64
  /-- conversion `int16(d)` of a `float64` -/
  toInt16From64 : F64 → Int
  /-- function `double2fixed` -/
  double2fixed : F32 → Int
  /-- function `calcBound(transform, rotation, width, height)` -/
  calcBound : Transform → Nat → Nat → Nat → Int × Int × Int × Int
  /-- function `queryOutput(dpy, id)`; `none` is the nil pointer -/
  queryOutput : Display → Nat → Option Output

/-! ## pendingConfig -/

/-- The builtin `copy(dst, src)`: overwrites the first `min(len dst, len src)`
elements of `dst`. -/
def copy (dst src : List Nat) : List Nat :=
  src.take (Nat.min dst.length src.length) ++ dst.drop (Nat.min dst.length src.length)

def ClonePendingConfig (c : pendingConfig) : pendingConfig :=
  let r : pendingConfig := {}
  let r := { r with crtc := c.crtc }
  let r := { r with output := c.output }
  let r := { r with mask := c.mask }
  let r := { r with mode := c.mode }
  let r := { r with rotation := c.rotation }
  let r := { r with posX := c.posX, posY := c.posY }
  let r := { r with transform := c.transform, filterName := c.filterName,
                    filterParams := c.filterParams }
  let r := { r with borderCompensationX := c.borderCompensationX,
                    borderCompensationY := c.borderCompensationY }
  let r := { r with gammaRed := copy r.gammaRed c.gammaRed }
  let r := { r with gammaGreen := copy r.gammaGreen c.gammaGreen }
  let r := { r with gammaBlue := copy r.gammaBlue c.gammaBlue }
  r

def pendingConfig.SetMode (c : pendingConfig) (m : Nat) : pendingConfig :=
  if c.mode ≠ m then
    let c := { c with mask := c.mask ||| _PendingMaskMode }
    { c with mode := m }
  else c

def pendingConfig.SetPos (c : pendingConfig) (x y : Int) : pendingConfig :=
  if c.posX ≠ x ∧ c.posY ≠ y then
    let c := { c with mask := c.mask ||| _PendingMaskPos }
    { c with posX := x, posY := y }
  else c

def pendingConfig.setCompensation (c : pendingConfig) (x y : Nat) : pendingConfig :=
  { c with borderCompensationX := x, borderCompensationY := y }

def pendingConfig.SetRotation (c : pendingConfig) (r : Nat) : Res pendingConfig Unit :=
  if c.rotation ≠ r then
    let c := { c with mask := c.mask ||| _PendingMaskRotation }
    if r &&& 0xf = 0 then
      .panic "SetRotation Error.." c
    else
      .ret () { c with rotation := r }
  else .ret () c

def pendingConfig.SetTransform (c : pendingConfig) (matrix : Transform) (filterName : String)
    (params : List Int) : pendingConfig :=
  if c.transform ≠ matrix ∨ c.filterName ≠ filterName then
    let c := { c with mask := c.mask ||| _PendingMaskTransform }
    { c with transform := matrix, filterName := filterName, filterParams := params }
  else c

def pendingConfig.setGamma (c : pendingConfig) (red green blue : List Nat) : pendingConfig :=
  let c := { c with mask := c.mask ||| _PendingMaskGramma }
  { c with gammaRed := red, gammaGreen := green, gammaBlue := blue }

def pendingConfig.SetScale (E : Env) (c : pendingConfig) (xScale yScale : E.F32) :
    pendingConfig :=
  let c := { c with transform := { c.transform with Matrix11 := E.double2fixed xScale } }
  let c := { c with transform := { c.transform with Matrix22 := E.double2fixed yScale } }
  let c := { c with transform := { c.transform with Matrix33 := E.double2fixed E.one } }
  if (!E.eq32 xScale E.one) || (!E.eq32 yScale E.one) then
    c.SetTransform c.transform "bilinear" []
  else
    c.SetTransform c.transform "nearest" []

def pendingConfig.appliedAllocation (E : Env) (DPY : Display) (c : pendingConfig) :
    Except String Rectangle :=
  let minfo := DPY.modes c.mode
  if minfo.Width = 0 ∨ minfo.Height = 0 then
    .error "No modeinfo"
  else
    match E.calcBound c.transform c.rotation minfo.Width minfo.Height with
    | (x1, y1, x2, y2) =>
      .ok { X := toInt16 (toInt16 (c.posX + x1) - toInt16 c.borderCompensationX)
            Y := toInt16 (toInt16 (c.posY + y1) - toInt16 c.borderCompensationY)
            Width := toUInt16 (toUInt16 (x2 - x1) - 2 * toUInt16 c.borderCompensationX)
            Height := toUInt16 (toUInt16 (y2 - y1) - 2 * toUInt16 c.borderCompensationY) }

/-! ## Sequencing of calls that may panic -/

/-- A call acting on a state `σ` that returns an `α` or panics. -/
def M (σ α : Type) : Type := σ → Res σ α

instance (σ : Type) : Monad (M σ) where
  pure a := fun s => .ret a s
  bind m f := fun s =>
    match m s with
    | .ret a s1 => f a s1
    | .panic msg s1 => .panic msg s1

/-- The builtin `panic(msg)`. -/
def raise {σ α : Type} (msg : String) : M σ α := fun s => .panic msg s

/-- Sends a request: it is pushed on the history. -/
def send (r : Request) : M (List Request) Unit := fun log => .ret () (r :: log)

/-- The history of requests sent so far. -/
def history : M (List Request) (List Request) := fun log => .ret log log

/-- Sends a write request and reports whether the server accepted it. -/
def write (X : XServer) (r : Request) : M (List Request) Bool := do
  let log ← history
  send r
  return X.accepts log r

/-- The call `randr.GetCrtcInfo(X, crtc, ts).Reply()`. -/
def GetCrtcInfo (X : XServer) (crtc ts : Nat) : M (List Request) (Option CrtcInfo) := do
  let log ← history
  send (.GetCrtcInfo crtc ts)
  return X.crtcInfo log crtc ts

/-- The call `randr.GetCrtcTransform(X, crtc).Reply()`. -/
def GetCrtcTransform (X : XServer) (crtc : Nat) : M (List Request) (Option CrtcTransform) := do
  let log ← history
  send (.GetCrtcTransform crtc)
  return X.crtcTransform log crtc

/-- The call `randr.GetOutputInfo(X, output, ts).Reply()`. -/
def GetOutputInfo (X : XServer) (output ts : Nat) : M (List Request) (Option OutputInfo) := do
  let log ← history
  send (.GetOutputInfo output ts)
  return X.outputInfo log output ts

/-- Evaluation of `c.appliedAllocation()` inside a call: its panic is the panic
of the caller. -/
def allocation {σ : Type} (E : Env) (DPY : Display) (c : pendingConfig) : M σ Rectangle :=
  fun s =>
    match c.appliedAllocation E DPY with
    | .ok r => .ret r s
    | .error msg => .panic msg s

/-- Evaluation of `queryOutput(DPY, id).Name`: a nil pointer panics. -/
def queryOutputName {σ : Type} (E : Env) (DPY : Display) (id : Nat) : M σ String :=
  fun s =>
    match E.queryOutput DPY id with
    | some op => .ret op.Name s
    | none => .panic "invalid memory address or nil pointer dereference" s

/-- Runs a call on the request history inside a call on a larger state. -/
def onLog {σ α : Type} (m : M (List Request) α) : M (σ × List Request) α :=
  fun s =>
    match m s.2 with
    | .ret a log => .ret a (s.1, log)
    | .panic msg log => .panic msg (s.1, log)

/-- The receiver `c` of a method of `pendingConfig`. -/
def receiver {τ : Type} : M (pendingConfig × τ) pendingConfig := fun s => .ret s.1 s

/-- An assignment to the receiver through a setter. -/
def update {τ : Type} (f : pendingConfig → pendingConfig) : M (pendingConfig × τ) Unit :=
  fun s => .ret () (f s.1, s.2)

/-! ## Construction and commit -/

/-- The function `NewPendingConfigWithoutCache`. The config starts as the zero
value `&pendingConfig{}`; each local below is the field of `c` of that name,
and the fields that are never assigned (the mask, the gamma ramps) keep
their zero value. -/
def NewPendingConfigWithoutCache (X : XServer) (DPY : Display) (op : Output) :
    M (List Request) pendingConfig := do
  let crtc :=
    if op.crtc ≠ 0 then op.crtc
    else match op.savedConfig with
      | some saved => saved.crtc
      | none => 0
  let mode :=
    if op.ModeID ≠ 0 then op.ModeID
    else match op.savedConfig with
      | some saved => saved.mode
      | none => 0
  let output := op.Identify
  let validMode := op.ListModes.any (fun m => mode == m)
  let mode := if !validMode then op.bestMode else mode
  let some cinfo ← GetCrtcInfo X crtc DPY.LastConfigTimeStamp
    | raise "NewPendingCofing failed at GetCrtcInfo"
  if cinfo.Rotation &&& 0xf = 0 then
    raise "Rotation err"
  else
    let rotation := cinfo.Rotation
    let some tinfo ← GetCrtcTransform X crtc
      | raise "NewPendingCofing failed at GetCrtcTransform"
    let transform := tinfo.CurrentTransform
    let filterName := tinfo.CurrentFilterName
    let filterParams := tinfo.CurrentParams
    if DPY.MirrorMode then
      let borderCompensationX := if cinfo.X < 0 then toUInt16 (toInt16 (-cinfo.X)) else 0
      let borderCompensationY := if cinfo.X < 0 then toUInt16 (toInt16 (-cinfo.Y)) else 0
      return { crtc := crtc, output := output, mode := mode, rotation := rotation,
               transform := transform, filterName := filterName, filterParams := filterParams,
               posX := 0, posY := 0,
               borderCompensationX := borderCompensationX,
               borderCompensationY := borderCompensationY }
    else
      return { crtc := crtc, output := output, mode := mode, rotation := rotation,
               transform := transform, filterName := filterName, filterParams := filterParams,
               posX := cinfo.X, posY := cinfo.Y,
               borderCompensationX := 0, borderCompensationY := 0 }

def NewPendingConfig (X : XServer) (DPY : Display) (op : Output) :
    M (List Request) pendingConfig := do
  if let some c := op.pendingConfig then
    return c
  NewPendingConfigWithoutCache X DPY op

/-- The method `apply`; it returns the error, `none` for `nil`. -/
def pendingConfig.apply (E : Env) (X : XServer) (DPY : Display) (c : pendingConfig) :
    M (List Request) (Option String) := do
  if c.mode = 0 then
    let ok ← write X (.SetCrtcConfig c.crtc TimeCurrentTime DPY.LastConfigTimeStamp
      0 0 0 c.rotation [])
    return (if ok then none else some "SetCrtcConfig")
  if c.mask &&& _PendingMaskGramma = _PendingMaskGramma then
    let ok ← write X (.SetCrtcGamma c.crtc (toUInt16 c.gammaRed.length)
      c.gammaRed c.gammaGreen c.gammaBlue)
    if !ok then
      return some "PendingConfig apply failed when SetCrtcGammaCheched"
  if c.mask &&& _PendingMaskTransform = _PendingMaskTransform then
    let ok ← write X (.SetCrtcTransform c.crtc c.transform (toUInt16 c.filterName.utf8ByteSize)
      c.filterName c.filterParams)
    if !ok then
      return some "PendingConfig apply failed when SetCrtcTransform"
  if ((c.mask &&& _PendingMaskPos) ||| _PendingMaskMode ||| _PendingMaskRotation) ≠ 0 then
    let outputs : List Nat := if c.mode ≠ 0 then [c.output] else []
    let ok ← if DPY.MirrorMode then
        write X (.SetCrtcConfig c.crtc TimeCurrentTime DPY.LastConfigTimeStamp
          (toInt16 (toUInt16 (-(c.borderCompensationX : Int))))
          (toInt16 (toUInt16 (-(c.borderCompensationY : Int)))) c.mode c.rotation outputs)
      else
        write X (.SetCrtcConfig c.crtc TimeCurrentTime DPY.LastConfigTimeStamp
          c.posX c.posY c.mode c.rotation outputs)
    if !ok then
      raise "PendingConfig apply failed when SetCrtcConfig(2)"
    let _ ← queryOutputName E DPY c.output
    let _ ← allocation E DPY c
  let some cinfo ← GetCrtcInfo X c.crtc TimeCurrentTime
    | raise "invalid memory address or nil pointer dereference"
  let rect : Rectangle :=
    { X := cinfo.X, Y := cinfo.Y
      Width := toUInt16 ((cinfo.Width : Int) - toUInt16 c.borderCompensationX)
      Height := toUInt16 ((cinfo.Height : Int) - toUInt16 c.borderCompensationY) }
  let alloc ← allocation E DPY c
  if rect ≠ alloc then
    let _ ← queryOutputName E DPY c.output
    let _ ← allocation E DPY c
  return none

/-! ## EnsureSize -/

/-- Lines 371-417 of `EnsureSize`: the offsets `ow`, `oh`, the ratio, and the
`switch` statement that scales and crops. `minfo` is `DPY.modes[c.mode]`. -/
def pendingConfig.EnsureSize.fit (E : Env) (DPY : Display) (minfo : ModeInfo)
    (width height : Nat) : M (pendingConfig × List Request) Unit := do
  let ow := toInt16 (toUInt16 ((minfo.Width : Int) - width))
  let oh := toInt16 (toUInt16 ((minfo.Height : Int) - height))
  let ratio := E.div32 (E.ofUInt16 minfo.Width) (E.ofUInt16 minfo.Height)
  if ow ≥ 0 ∧ oh ≥ 0 then
    update fun c => c.SetScale E E.one E.one
    update fun c => c.setCompensation (toUInt16 (Int.tdiv ow 2)) (toUInt16 (Int.tdiv oh 2))
  else if ow < 0 ∧ oh ≤ 0 then
    if E.eq32 ratio (E.div32 (E.ofUInt16 width) (E.ofUInt16 height)) then
      let scale := E.add32 E.one (E.div32 (E.ofInt16 (toInt16 (-ow))) (E.ofUInt16 minfo.Width))
      update fun c => c.SetScale E scale scale
      update fun c => c.setCompensation 0 0
    else
      if toInt16 (-ow) < toInt16 (-oh) then
        raise "YAHOOO1"
      else
        let ratio := E.div32 (E.ofUInt16 width) (E.ofUInt16 minfo.Width)
        let margin := toInt16 (E.toInt16
          (E.sub32 (E.mul32 (E.ofUInt16 minfo.Height) ratio) (E.ofUInt16 height)))
        update fun c => c.setCompensation 0 (toUInt16 (Int.tdiv margin 2))
        update fun c => c.SetScale E ratio ratio
  else if ow ≥ 0 ∧ oh ≤ 0 then
    let scale := E.div32 (E.ofUInt16 height) (E.ofUInt16 minfo.Height)
    let margin := toInt16 (E.toInt16From64 (E.ceil (E.div64
      (E.toF64 (E.sub32 (E.mul32 scale (E.ofUInt16 minfo.Width)) (E.ofUInt16 width)))
      E.two64)))
    update fun c => c.setCompensation (toUInt16 margin) 0
    update fun c => c.SetScale E scale scale
    let _ ← allocation E DPY (← receiver)
  else if ow ≤ 0 ∧ oh ≥ 0 then
    let margin := toInt16 (E.toInt16
      (E.sub32 (E.mul32 ratio (E.ofUInt16 width)) (E.ofUInt16 height)))
    update fun c => c.setCompensation 0 (toUInt16 (Int.tdiv margin 2))
    let scale := E.div32 (E.ofUInt16 width) (E.ofUInt16 minfo.Width)
    update fun c => c.SetScale E scale scale
    let _ ← allocation E DPY (← receiver)
  else
    pure ()

/-- Lines 418-425 of `EnsureSize`: the allocation reached is compared with the
target; on a mismatch the CRTC is read for the log line. -/
def pendingConfig.EnsureSize.check (E : Env) (X : XServer) (DPY : Display)
    (width height : Nat) : M (pendingConfig × List Request) Unit := do
  let alloc ← allocation E DPY (← receiver)
  if width ≠ alloc.Width ∨ height ≠ alloc.Height then
    let some _ ← onLog (GetCrtcInfo X (← receiver).crtc 0)
      | raise "invalid memory address or nil pointer dereference"
    let _ ← allocation E DPY (← receiver)
  else
    pure ()

/-- The method `EnsureSize`; the state is the receiver and the request history. -/
def pendingConfig.EnsureSize (E : Env) (X : XServer) (DPY : Display)
    (width height _methodHint : Nat) : M (pendingConfig × List Request) Unit := do
  let minfo := DPY.modes (← receiver).mode
  if minfo.Width = width ∧ minfo.Height = height then
    update fun c => (c.SetScale E E.one E.one).setCompensation 0 0
    if DPY.MirrorMode then
      update fun c => c.SetPos 0 0
      update fun c => { c with mask := c.mask ||| _PendingMaskPos }
    let _ ← allocation E DPY (← receiver)
  else
    pendingConfig.EnsureSize.fit E DPY minfo width height
    pendingConfig.EnsureSize.check E X DPY width height

/-! ## Outputs and the display -/

/-- The state of the reconciler: the display with its outputs, and the
history of requests. -/
abbrev World : Type := Display × List Request

/-- The display `DPY` as it is now. -/
def display : M World Display := fun s => .ret s.1 s

/-- The output behind the pointer `op`; an index outside `Outputs` is a nil pointer. -/
def getOutput (i : Nat) : M World Output :=
  fun s =>
    match s.1.Outputs[i]? with
    | some op => .ret op s
    | none => .panic "invalid memory address or nil pointer dereference" s

/-- The display after an assignment to fields of its output number `i`. -/
def Display.assign (dpy : Display) (i : Nat) (f : Output → Output) : Display :=
  { dpy with Outputs := dpy.Outputs.modify f i }

/-- An assignment to fields of the output behind the pointer `op`. -/
def setOutput (i : Nat) (f : Output → Output) : M World Unit :=
  fun s => .ret () (s.1.assign i f, s.2)

/-- A deferred call: `d` runs when the body returns and when it panics. -/
def deferring {σ α : Type} (d : σ → σ) (m : M σ α) : M σ α :=
  fun s =>
    match m s with
    | .ret a s1 => .ret a (d s1)
    | .panic msg s1 => .panic msg (d s1)

/-- A `for ... range` loop without `break`. -/
def forEach {σ ι : Type} (f : ι → M σ Unit) : List ι → M σ Unit
  | [] => pure ()
  | i :: rest => do
    f i
    forEach f rest

/-- Modelled from the spec: `Display.stopListen` is declared outside `apply.go`;
it pauses the delivery of external events, recorded here in the history. -/
def Display.stopListen : M World Unit := onLog (send .stopListen)

/-- Modelled from the spec: `Display.startListen` is declared outside `apply.go`;
it resumes the delivery of external events, recorded here in the history. -/
def Display.startListen (s : World) : World := (s.1, Request.startListen :: s.2)

/-- Modelled from the spec: `Display.setScreenSize` is declared outside
`apply.go`; it resizes the virtual screen to the given bounds, which become
the current screen size of the display. -/
def Display.setScreenSize (w h : Nat) : M World Unit :=
  fun s => .ret () ({ s.1 with Width := w, Height := h }, Request.SetScreenSize w h :: s.2)

def Output.pendingAllocation (E : Env) (X : XServer) (i : Nat) : M World Rectangle := do
  let op ← getOutput i
  if op.Opened then
    if let some c := op.pendingConfig then
      allocation E (← display) c
    else
      let c ← onLog (NewPendingConfig X (← display) op)
      let ret ← allocation E (← display) c
      setOutput i fun op => { op with pendingConfig := none }
      return ret
  else
    return ⟨0, 0, 0, 0⟩

/-- The loop of `setOpened` over the candidate CRTCs of the output; it returns `found`. -/
def Output.setOpened.findCrtc (X : XServer) (DPY : Display) (op : Output) :
    List Nat → M (List Request) Bool
  | [] => pure false
  | crtc :: rest => do
    let some cinfo ← GetCrtcInfo X crtc DPY.LastConfigTimeStamp
      | raise "setOpened failed at GetCrtcInfo"
    if cinfo.Mode = 0 then
      let ok ← write X (.SetCrtcConfig crtc TimeCurrentTime DPY.LastConfigTimeStamp
        0 0 op.bestMode op.Rotation [op.Identify])
      if !ok then
        raise "setOpened failed at SetCrtcInfo"
      return true
    Output.setOpened.findCrtc X DPY op rest

def Output.setOpened (E : Env) (X : XServer) (i : Nat) (v : Bool) : M World Unit := do
  let op ← getOutput i
  if op.Opened = v then
    return
  setOutput i fun op => { op with Opened := v }
  if v = true then
    if let some saved := op.savedConfig then
      let c := ClonePendingConfig saved
      setOutput i fun op => { op with pendingConfig := some c }
      setOutput i fun op => { op with savedConfig := none }
      let _ ← onLog (c.apply E X (← display))
      setOutput i fun op => { op with pendingConfig := none }
    else
      let some oinfo ← onLog (GetOutputInfo X op.Identify (← display).LastConfigTimeStamp)
        | raise "setOpened failed at GetOutputInfo"
      let found ← onLog (Output.setOpened.findCrtc X (← display) op oinfo.Crtcs)
      if !found then
        raise "Can not open the output"
  else
    let config ← onLog (NewPendingConfig X (← display) op)
    setOutput i fun op => { op with pendingConfig := none }
    setOutput i fun op => { op with savedConfig := some (ClonePendingConfig config) }
    let _ ← onLog ((config.SetMode 0).apply E X (← display))

/-- The first loop of `adjustScreenSize`: the bounds of all pending allocations. -/
def Display.adjustScreenSize.bound (E : Env) (X : XServer) :
    List Nat → Nat × Nat → M World (Nat × Nat)
  | [], wh => pure wh
  | i :: rest, (w, h) => do
    let b ← Output.pendingAllocation E X i
    Display.adjustScreenSize.bound E X rest (DDE.max b.Width w, DDE.max b.Height h)

/-- The second loop of `adjustScreenSize`: closes the outputs that do not fit
and returns them. -/
def Display.adjustScreenSize.close (E : Env) (X : XServer) (w h : Nat) :
    List Nat → List Nat → M World (List Nat)
  | [], tmpOutputs => pure tmpOutputs
  | i :: rest, tmpOutputs => do
    let op ← getOutput i
    let mut tmpOutputs := tmpOutputs
    if op.Opened ∧ some i ≠ (← display).MirrorOutput then
      let some info ← onLog (GetCrtcInfo X op.crtc 0)
        | raise "invalid memory address or nil pointer dereference"
      let cw := DDE.max op.Allocation.Width info.Width
      let ch := DDE.max op.Allocation.Height info.Height
      if cw > DDE.min w (← display).Width ∨ ch > DDE.min h (← display).Height then
        Output.setOpened E X i false
        tmpOutputs := tmpOutputs ++ [i]
    Display.adjustScreenSize.close E X w h rest tmpOutputs

def Display.adjustScreenSize (E : Env) (X : XServer) : M World (List Nat) := do
  Display.stopListen
  deferring Display.startListen do
    let outputs := List.range (← display).Outputs.length
    let (w, h) ← Display.adjustScreenSize.bound E X outputs (0, 0)
    let wDif := Int.natAbs ((w : Int) - (← display).Width)
    let hDif := Int.natAbs ((h : Int) - (← display).Height)
    if wDif ≥ 4 ∨ hDif ≥ 4 then
      let tmpOutputs ← Display.adjustScreenSize.close E X w h outputs []
      Display.setScreenSize w h
      return tmpOutputs
    else
      Display.setScreenSize (toUInt16 ((w : Int) + toUInt16 wDif))
        (toUInt16 ((h : Int) + toUInt16 hDif))
      return []

/-- Modelled from the spec: the method `Output.EnsureSize` is declared outside
`apply.go`; it runs `pendingConfig.EnsureSize` on the draft of the output
(the one `NewPendingConfig` gives) and keeps the result as the draft. -/
def Output.EnsureSize (E : Env) (X : XServer) (i : Nat) (width height methodHint : Nat) :
    M World Unit := do
  let op ← getOutput i
  let c ← onLog (NewPendingConfig X (← display) op)
  let DPY ← display
  fun s =>
    match pendingConfig.EnsureSize E X DPY width height methodHint (c, s.2) with
    | .ret _ (c1, log) =>
      .ret () (s.1.assign i fun op => { op with pendingConfig := some c1 }, log)
    | .panic msg (c1, log) =>
      .panic msg (s.1.assign i fun op =>
        if op.pendingConfig.isSome then { op with pendingConfig := some c1 } else op, log)

/-- The body of the mirror loop of `ApplyChanged` for one output. -/
def Display.ApplyChanged.mirror (E : Env) (X : XServer) (mainOP : Nat) (w h : Nat) (i : Nat) :
    M World Unit := do
  let op ← getOutput i
  if op.Opened ∧ i ≠ mainOP then
    let main ← getOutput mainOP
    let c ← onLog (NewPendingConfig X (← display) op)
    let c := c.SetPos 0 0
    match c.SetRotation (main.Rotation ||| main.Reflect) with
    | .panic msg c1 =>
      -- the receiver was changed in place: visible if it is the cached draft
      if op.pendingConfig.isSome then
        setOutput i fun op => { op with pendingConfig := some c1 }
      raise msg
    | .ret _ c1 =>
      setOutput i fun op => { op with pendingConfig := some (c1.SetScale E E.one E.one) }
    Output.EnsureSize E X i w h EnsureSizeHintAuto

/-- The body of the commit loop of `ApplyChanged` for one output. -/
def Display.ApplyChanged.commit (E : Env) (X : XServer) (i : Nat) : M World Unit := do
  let op ← getOutput i
  if let some c := op.pendingConfig then
    if let some _ ← onLog (c.apply E X (← display)) then
      raise "Apply failed"
    setOutput i fun op => { op with pendingConfig := none }

/-- The function `ApplyChanged` between `changeLock()` and the deferred calls. -/
def Display.ApplyChanged.body (E : Env) (X : XServer) : M World Unit := do
  let dpy ← display
  let stopRun := !(dpy.Outputs.any fun op =>
    match op.pendingConfig with
    | some c => c.mask != 0
    | none => false)
  if stopRun then
    return
  Display.stopListen
  deferring Display.startListen do
    let outputs := List.range dpy.Outputs.length
    if let some mainOP := dpy.MirrorOutput then
      let main ← getOutput mainOP
      if main.pendingConfig.isSome then
        if dpy.MirrorMode ∧ main.Opened then
          let allocation ← Output.pendingAllocation E X mainOP
          let w := allocation.Width
          let h := allocation.Height
          let _ ← Output.pendingAllocation E X mainOP
          forEach (Display.ApplyChanged.mirror E X mainOP w h) outputs
    let tmpClosedOutput ← Display.adjustScreenSize E X
    forEach (Display.ApplyChanged.commit E X) outputs
    forEach (fun i => Output.setOpened E X i true) tmpClosedOutput
    if let some primary := (← display).PrimaryOutput then
      let op ← getOutput primary
      onLog (send (.SetOutputPrimary (← display).Root op.Identify))
    else
      onLog (send (.SetOutputPrimary (← display).Root 0))

/-- The function `ApplyChanged`: `changeLock()`, the body, then the deferred
`changeUnlock()` and `recover()`, which ends a panic of the body. -/
def Display.ApplyChanged (E : Env) (X : XServer) (s : World) : World :=
  let r := Display.ApplyChanged.body E X (s.1, Request.GrabServer :: s.2)
  (r.state.1, Request.UngrabServer :: r.state.2)

/-! ## Sample inputs -/

/-- A concrete interpretation of `Env`, used to evaluate the definitions on
sample inputs: a number is the integer nearest below 65536 times its value
(binary fixed point, 16 fractional bits), `calcBound` is the box of the scaled
and possibly turned mode, `queryOutput` searches the outputs of the display. -/
def sampleEnv : Env where
  F32 := Int
  F64 := Int
  ofUInt16 n := (n : Int) * 65536
  ofInt16 z := z * 65536
  one := 65536
  add32 a b := a + b
  sub32 a b := a - b
  mul32 a b := a * b / 65536
  div32 a b := a * 65536 / b
  eq32 a b := a == b
  toInt16 a := Int.tdiv a 65536
  toF64 a := a
  two64 := 131072
  div64 a b := a * 65536 / b
  ceil a := -((-a) / 65536) * 65536
  toInt16From64 a := Int.tdiv a 65536
  double2fixed a := a
  calcBound t rotation w h :=
    if rotation &&& 10 = 0 then (0, 0, (w : Int) * t.Matrix11 / t.Matrix33, (h : Int) * t.Matrix22 / t.Matrix33)
    else (0, 0, (h : Int) * t.Matrix22 / t.Matrix33, (w : Int) * t.Matrix11 / t.Matrix33)
  queryOutput dpy id := dpy.Outputs.find? fun op => op.Identify == id

/-- A mode table: 1 is 1920x1080, 2 is 1024x768, 3 is 40000x1000. -/
def sampleModes (m : Nat) : ModeInfo :=
  if m = 1 then ⟨1920, 1080⟩
  else if m = 2 then ⟨1024, 768⟩
  else if m = 3 then ⟨40000, 1000⟩
  else ⟨0, 0⟩

/-- The identity transform in 16.16 fixed point. -/
def identityTransform : Transform := ⟨65536, 0, 0, 0, 65536, 0, 0, 0, 65536⟩

/-- A server that accepts every write and answers every query: each CRTC
shows mode 1 at the origin, unrotated and unscaled. -/
def sampleServer : XServer where
  crtcInfo _ _ _ := some ⟨0, 0, 1920, 1080, 1, 1⟩
  crtcTransform _ _ := some ⟨identityTransform, "nearest", []⟩
  outputInfo _ _ _ := some ⟨[1]⟩
  accepts _ _ := true

/-- An open output on CRTC 1 in mode 1, without draft. -/
def sampleOutput : Output :=
  { Name := "VGA1", Identify := 7, crtc := 1, ModeID := 1, ListModes := [1, 2], bestMode := 1,
    Opened := true, Allocation := ⟨0, 0, 1920, 1080⟩, Rotation := 1 }

/-- A display with the sample output alone, not mirrored. -/
def sampleDisplay : Display :=
  { Outputs := [sampleOutput], MirrorOutput := none, MirrorMode := false,
    PrimaryOutput := some 0, Width := 1920, Height := 1080, modes := sampleModes,
    LastConfigTimeStamp := 0, Root := 0 }

/-- A clean config for the sample output: mode 1, normal rotation, mask 0. -/
def sampleConfig : pendingConfig :=
  { crtc := 1, output := 7, mode := 1, rotation := 1, transform := identityTransform,
    filterName := "nearest" }

/-- A config scaled by 2 with the bilinear filter and an empty mask. -/
def scaledConfig : pendingConfig :=
  { crtc := 1, output := 7, mode := 1, rotation := 1,
    transform := ⟨131072, 0, 0, 0, 131072, 0, 0, 0, 65536⟩, filterName := "bilinear" }

/-- The transform `SetScale` leaves: the old one with a new diagonal. -/
def scaled (E : Env) (t : Transform) (x y : E.F32) : Transform :=
  { t with Matrix11 := E.double2fixed x, Matrix22 := E.double2fixed y,
           Matrix33 := E.double2fixed E.one }

/-- The rectangle `appliedAllocation` computes when the mode has a size. -/
def pendingConfig.box (E : Env) (DPY : Display) (c : pendingConfig) : Rectangle :=
  match E.calcBound c.transform c.rotation (DPY.modes c.mode).Width (DPY.modes c.mode).Height with
  | (x1, y1, x2, y2) =>
    { X := toInt16 (toInt16 (c.posX + x1) - toInt16 c.borderCompensationX)
      Y := toInt16 (toInt16 (c.posY + y1) - toInt16 c.borderCompensationY)
      Width := toUInt16 (toUInt16 (x2 - x1) - 2 * toUInt16 c.borderCompensationX)
      Height := toUInt16 (toUInt16 (y2 - y1) - 2 * toUInt16 c.borderCompensationY) }

/-- The sample config on mode 2 (1024 x 768). -/
def smallConfig : pendingConfig := { sampleConfig with mode := 2 }

/-- The sample display whose output holds the clean sample config as draft. -/
def draftDisplay : Display :=
  { sampleDisplay with Outputs := [{ sampleOutput with pendingConfig := some sampleConfig }] }

/-- The fields of a config that decide its applied allocation. -/
def pendingConfig.geometry (c : pendingConfig) : Nat × Int × Int × Nat × Transform × Nat × Nat :=
  (c.mode, c.posX, c.posY, c.rotation, c.transform, c.borderCompensationX,
    c.borderCompensationY)

/-- The state a call of the switch ends in, when it sets compensation
`(bx, by)` and scale `x`: same history and CRTC, new transform diagonal and
compensation, and it returns when the mode has a size. -/
def fitsTo (E : Env) (DPY : Display) (x : E.F32) (bx bY : Nat)
    (s : pendingConfig × List Request) (r : Res (pendingConfig × List Request) Unit) : Prop :=
  r.state.2 = s.2 ∧ r.state.1.crtc = s.1.crtc ∧
  r.state.1.geometry
    = (s.1.mode, s.1.posX, s.1.posY, s.1.rotation, scaled E s.1.transform x x, bx, bY) ∧
  (0 < (DPY.modes s.1.mode).Width → 0 < (DPY.modes s.1.mode).Height → r.returned = true)

/-- The config the first branch of `EnsureSize` (native size equal to the
target) leaves. -/
def nativeTarget (E : Env) (DPY : Display) (c : pendingConfig) : pendingConfig :=
  if DPY.MirrorMode then
    { ((c.SetScale E E.one E.one).setCompensation 0 0).SetPos 0 0 with
      mask := (((c.SetScale E E.one E.one).setCompensation 0 0).SetPos 0 0).mask
        ||| _PendingMaskPos }
  else (c.SetScale E E.one E.one).setCompensation 0 0

/-- The sample config with three gamma ramps of two levels. -/
def gammaConfig : pendingConfig :=
  { sampleConfig with gammaRed := [0, 65535], gammaGreen := [0, 65535], gammaBlue := [0, 65535] }

/-- A server like the sample one whose CRTCs sit at offset (0, -5). -/
def shiftedServer : XServer :=
  { sampleServer with crtcInfo := fun _ _ _ => some ⟨0, -5, 1920, 1080, 1, 1⟩ }

/-- The sample display in mirror mode. -/
def mirrorDisplay : Display := { sampleDisplay with MirrorMode := true }

/-- The display after `setOpened(false)` on its open output number `i`, whose
config at that moment is `config`: the output is closed, has no draft, and
holds the clone of `config` as saved config. -/
def Display.closeOutput (d : Display) (i : Nat) (config : pendingConfig) : Display :=
  ((d.assign i fun op => { op with Opened := false }).assign i
    fun op => { op with pendingConfig := none }).assign i
    fun op => { op with savedConfig := some (ClonePendingConfig config) }

/-- The sample mode table with two more modes: 4 is 2560x1440, 5 is 65535x1080. -/
def wideModes (m : Nat) : ModeInfo :=
  if m = 4 then ⟨2560, 1440⟩
  else if m = 5 then ⟨65535, 1080⟩
  else sampleModes m

/-- A display of 65533x1080 whose output holds a draft on the 65535x1080 mode. -/
def wrapDisplay : Display :=
  { sampleDisplay with
    Outputs := [{ sampleOutput with pendingConfig := some { sampleConfig with mode := 5 } }]
    Width := 65533, Height := 1080, modes := wideModes }

/-- The value a call returned, `none` when it panicked. -/
def Res.value {σ α : Type} : Res σ α → Option α
  | .ret a _ => some a
  | .panic _ _ => none

/-- A server like the sample one that rejects the transform written to CRTC 1. -/
def rejectingServer : XServer :=
  { sampleServer with
    accepts := fun _ r =>
      match r with
      | .SetCrtcTransform 1 _ _ _ _ => false
      | _ => true }

/-- A second open output, on CRTC 2. -/
def secondOutput : Output :=
  { sampleOutput with Name := "HDMI1", Identify := 8, crtc := 2 }

/-- A display with two open outputs that both hold a draft whose transform is dirty. -/
def twoDisplay : Display :=
  { sampleDisplay with
    Outputs :=
      [{ sampleOutput with pendingConfig := some { sampleConfig with mask := 4 } },
       { secondOutput with
         pendingConfig := some { sampleConfig with crtc := 2, output := 8, mask := 4 } }] }

/-- The display at the moment `setOpened(true)` commits the clone `c` of the
saved config of its closed output number `i`: the output is open, holds `c` as
draft, and has no saved config. -/
def Display.reopenOutput (d : Display) (i : Nat) (c : pendingConfig) : Display :=
  ((d.assign i fun op => { op with Opened := true }).assign i
    fun op => { op with pendingConfig := some c }).assign i
    fun op => { op with savedConfig := none }

/-- The sample output holding a draft on the 1024x768 mode cropped by (112, 84)
to 800x600 at position (0, 0). -/
def croppedOutput : Output :=
  { sampleOutput with
    pendingConfig := some { smallConfig with borderCompensationX := 112,
                                             borderCompensationY := 84 } }

/-- The sample display in mirror mode with the cropped output. -/
def croppedDisplay : Display :=
  { sampleDisplay with Outputs := [croppedOutput], MirrorMode := true }

/-- The requests that write the mode, position and rotation of a CRTC, or its
transform. -/
def Request.isGeometry : Request → Bool
  | .SetCrtcConfig .. => true
  | .SetCrtcTransform .. => true
  | _ => false

/-- The pending allocations of the outputs `is`, one per output and in the
order of the first loop of `adjustScreenSize`, each obtained by
`pendingAllocation` when the loop reaches its output. -/
def Display.adjustScreenSize.allocations (E : Env) (X : XServer) :
    List Nat → M World (List Rectangle)
  | [] => pure []
  | i :: rest => do
    let b ← Output.pendingAllocation E X i
    let bs ← Display.adjustScreenSize.allocations E X rest
    return b :: bs

/-- A mode table with 6 as 2560x1080 and 7 as 1920x1440. -/
def mixedModes (m : Nat) : ModeInfo :=
  if m = 6 then ⟨2560, 1080⟩
  else if m = 7 then ⟨1920, 1440⟩
  else sampleModes m

/-- A display of 2560x1436 with two outputs: the first holds a draft on the
2560x1080 mode, the second a draft on the 1920x1440 mode. -/
def mixedDisplay : Display :=
  { sampleDisplay with
    Outputs :=
      [{ sampleOutput with pendingConfig := some { sampleConfig with mode := 6 } },
       { secondOutput with
         pendingConfig := some { sampleConfig with crtc := 2, output := 8, mode := 7 } }]
    Width := 2560, Height := 1436, modes := mixedModes }

/-- The live allocation of an output as the closing loop of `adjustScreenSize`
takes it after the history `log`: per axis the larger of the recorded
allocation and the size the server reports for the CRTC; `none` when the
server does not answer. -/
def liveAllocation (X : XServer) (op : Output) (log : List Request) : Option (Nat × Nat) :=
  match X.crtcInfo log op.crtc 0 with
  | some info =>
    some (DDE.max op.Allocation.Width info.Width, DDE.max op.Allocation.Height info.Height)
  | none => none

/-- Whether the closing loop of `adjustScreenSize` closes output `i`, in the
words of the amended claim: the output is open, is not the mirror source, and
its live allocation after the history `log` exceeds the smaller of the new
bound and the current screen size in width or in height. -/
def closesAt (X : XServer) (d : Display) (w h : Nat) (log : List Request) (i : Nat) : Bool :=
  match d.Outputs[i]? with
  | some op =>
    op.Opened && decide (some i ≠ d.MirrorOutput) &&
      match liveAllocation X op log with
      | some (cw, ch) => decide (cw > DDE.min w d.Width) || decide (ch > DDE.min h d.Height)
      | none => false
  | none => false

/-- The mode last written to CRTC `k` in a history (newest request first). -/
def lastMode (k : Nat) : List Request → Option Nat
  | [] => none
  | .SetCrtcConfig crtc _ _ _ _ mode _ _ :: rest =>
    if crtc = k then some mode else lastMode k rest
  | _ :: rest => lastMode k rest

/-- A server that follows the writes: a CRTC shows the mode last written to
it, with the size of that mode (0x0 when disabled), and mode 4 (2560x1440)
before any write. Everything else is as on the sample server. -/
def trackingServer : XServer :=
  { sampleServer with
    crtcInfo := fun log k _ =>
      match lastMode k log with
      | some m => some ⟨0, 0, (wideModes m).Width, (wideModes m).Height, m, 1⟩
      | none => some ⟨0, 0, 2560, 1440, 4, 1⟩ }

/-- An open output on CRTC 1 in mode 4, recorded at 2560x1440. -/
def wideOutput : Output :=
  { sampleOutput with ModeID := 4, ListModes := [1, 4], bestMode := 4,
                      Allocation := ⟨0, 0, 2560, 1440⟩ }

/-- A display of 2560x1440 whose output shows mode 4 and holds a draft that
`SetMode(1)` has switched to the 1920x1080 mode. -/
def wideDisplay : Display :=
  { sampleDisplay with
    Outputs := [{ wideOutput with
      pendingConfig := some (pendingConfig.SetMode { sampleConfig with mode := 4 } 1) }]
    Width := 2560, Height := 1440, modes := wideModes }

/-- The state `wideDisplay` is in after one pass of `ApplyChanged` on the
tracking server, once the output has got a new draft that `SetMode(4)` has
switched back to the 2560x1440 mode. -/
def secondPass : World :=
  ((Display.ApplyChanged sampleEnv trackingServer (wideDisplay, [])).1.assign 0
      fun op => { op with pendingConfig := some (pendingConfig.SetMode sampleConfig 4) },
    (Display.ApplyChanged sampleEnv trackingServer (wideDisplay, [])).2)

/-- A display of 2560x1440 with two outputs on CRTC 1: the first is recorded at
2560x1440 and holds a draft on the 1920x1080 mode, the second is recorded at
1024x768 and holds a draft on the 1024x768 mode. -/
def sharedDisplay : Display :=
  { sampleDisplay with
    Outputs :=
      [{ wideOutput with pendingConfig := some sampleConfig },
       { secondOutput with
         crtc := 1, Allocation := ⟨0, 0, 1024, 768⟩
         pendingConfig := some { sampleConfig with output := 8, mode := 2 } }]
    Width := 2560, Height := 1440, modes := wideModes }

/-! ## Lemmas on sequencing -/

@[simp] theorem bind_apply {σ α β : Type} (m : M σ α) (f : α → M σ β) (s : σ) :
    (m >>= f) s = match m s with
      | .ret a s1 => f a s1
      | .panic msg s1 => .panic msg s1 := rfl

@[simp] theorem pure_apply {σ α : Type} (a : α) (s : σ) : (pure a : M σ α) s = .ret a s := rfl

@[simp] theorem raise_apply {σ α : Type} (msg : String) (s : σ) :
    (raise msg : M σ α) s = .panic msg s := rfl

@[simp] theorem send_apply (r : Request) (log : List Request) :
    send r log = .ret () (r :: log) := rfl

@[simp] theorem history_apply (log : List Request) : history log = .ret log log := rfl

@[simp] theorem GetCrtcInfo_apply (X : XServer) (crtc ts : Nat) (log : List Request) :
    GetCrtcInfo X crtc ts log = .ret (X.crtcInfo log crtc ts) (Request.GetCrtcInfo crtc ts :: log) :=
  rfl

@[simp] theorem GetCrtcTransform_apply (X : XServer) (crtc : Nat) (log : List Request) :
    GetCrtcTransform X crtc log
      = .ret (X.crtcTransform log crtc) (Request.GetCrtcTransform crtc :: log) := rfl

@[simp] theorem receiver_apply {τ : Type} (s : pendingConfig × τ) :
    (receiver : M (pendingConfig × τ) pendingConfig) s = .ret s.1 s := rfl

@[simp] theorem update_apply {τ : Type} (f : pendingConfig → pendingConfig)
    (s : pendingConfig × τ) : update f s = .ret () (f s.1, s.2) := rfl

/-! ## Lemmas on the setters -/

@[simp] theorem SetTransform_transform (c : pendingConfig) (m : Transform) (f : String)
    (p : List Int) : (c.SetTransform m f p).transform = m := by
  unfold pendingConfig.SetTransform
  split
  · rfl
  · rename_i h
    simp only [not_or, not_not] at h
    exact h.1

/-- What `SetTransform` leaves alone: everything but mask, transform and filter. -/
theorem SetTransform_frame (c : pendingConfig) (m : Transform) (f : String) (p : List Int) :
    (c.SetTransform m f p).crtc = c.crtc ∧ (c.SetTransform m f p).output = c.output ∧
    (c.SetTransform m f p).mode = c.mode ∧ (c.SetTransform m f p).posX = c.posX ∧
    (c.SetTransform m f p).posY = c.posY ∧ (c.SetTransform m f p).rotation = c.rotation ∧
    (c.SetTransform m f p).borderCompensationX = c.borderCompensationX ∧
    (c.SetTransform m f p).borderCompensationY = c.borderCompensationY := by
  unfold pendingConfig.SetTransform
  split <;> simp

@[simp] theorem SetScale_transform (E : Env) (c : pendingConfig) (x y : E.F32) :
    (c.SetScale E x y).transform = scaled E c.transform x y := by
  unfold pendingConfig.SetScale
  split <;> simp [scaled]

@[simp] theorem SetScale_crtc (E : Env) (c : pendingConfig) (x y : E.F32) :
    (c.SetScale E x y).crtc = c.crtc := by
  unfold pendingConfig.SetScale
  split <;> simp [SetTransform_frame]

@[simp] theorem SetScale_mode (E : Env) (c : pendingConfig) (x y : E.F32) :
    (c.SetScale E x y).mode = c.mode := by
  unfold pendingConfig.SetScale
  split <;> simp [SetTransform_frame]

@[simp] theorem SetScale_posX (E : Env) (c : pendingConfig) (x y : E.F32) :
    (c.SetScale E x y).posX = c.posX := by
  unfold pendingConfig.SetScale
  split <;> simp [SetTransform_frame]

@[simp] theorem SetScale_posY (E : Env) (c : pendingConfig) (x y : E.F32) :
    (c.SetScale E x y).posY = c.posY := by
  unfold pendingConfig.SetScale
  split <;> simp [SetTransform_frame]

@[simp] theorem SetScale_rotation (E : Env) (c : pendingConfig) (x y : E.F32) :
    (c.SetScale E x y).rotation = c.rotation := by
  unfold pendingConfig.SetScale
  split <;> simp [SetTransform_frame]

@[simp] theorem SetScale_borderCompensationX (E : Env) (c : pendingConfig) (x y : E.F32) :
    (c.SetScale E x y).borderCompensationX = c.borderCompensationX := by
  unfold pendingConfig.SetScale
  split <;> simp [SetTransform_frame]

@[simp] theorem SetScale_borderCompensationY (E : Env) (c : pendingConfig) (x y : E.F32) :
    (c.SetScale E x y).borderCompensationY = c.borderCompensationY := by
  unfold pendingConfig.SetScale
  split <;> simp [SetTransform_frame]

/-! ## Lemmas on the applied allocation -/

theorem appliedAllocation_eq (E : Env) (DPY : Display) (c : pendingConfig) :
    c.appliedAllocation E DPY =
      if (DPY.modes c.mode).Width = 0 ∨ (DPY.modes c.mode).Height = 0 then .error "No modeinfo"
      else .ok (c.box E DPY) := by
  simp only [pendingConfig.appliedAllocation, pendingConfig.box]

theorem allocation_sized {σ : Type} (E : Env) (DPY : Display) (c : pendingConfig) (s : σ)
    (hW : 0 < (DPY.modes c.mode).Width) (hH : 0 < (DPY.modes c.mode).Height) :
    allocation E DPY c s = .ret (c.box E DPY) s := by
  have h : ¬ ((DPY.modes c.mode).Width = 0 ∨ (DPY.modes c.mode).Height = 0) := by omega
  simp [allocation, appliedAllocation_eq, h]

theorem allocation_degenerate {σ : Type} (E : Env) (DPY : Display) (c : pendingConfig) (s : σ)
    (h : (DPY.modes c.mode).Width = 0 ∨ (DPY.modes c.mode).Height = 0) :
    allocation E DPY c s = .panic "No modeinfo" s := by
  simp [allocation, appliedAllocation_eq, h]

theorem appliedAllocation_congr (E : Env) (DPY : Display) (c c1 : pendingConfig)
    (h : c1.geometry = c.geometry) : c1.appliedAllocation E DPY = c.appliedAllocation E DPY := by
  simp only [pendingConfig.geometry, Prod.mk.injEq] at h
  obtain ⟨h1, h2, h3, h4, h5, h6, h7⟩ := h
  simp only [pendingConfig.appliedAllocation, h1, h2, h3, h4, h5, h6, h7]

/-! ## Lemmas on EnsureSize -/

theorem scaled_scaled (E : Env) (t : Transform) (x y : E.F32) :
    scaled E (scaled E t x y) x y = scaled E t x y := rfl

theorem onLog_GetCrtcInfo_apply {σ : Type} (X : XServer) (crtc ts : Nat) (s : σ × List Request) :
    (onLog (GetCrtcInfo X crtc ts) : M (σ × List Request) (Option CrtcInfo)) s
      = .ret (X.crtcInfo s.2 crtc ts) (s.1, Request.GetCrtcInfo crtc ts :: s.2) := rfl

/-- The final check of `EnsureSize` does not change the config. -/
theorem check_state (E : Env) (X : XServer) (DPY : Display) (w h : Nat)
    (s : pendingConfig × List Request) :
    (pendingConfig.EnsureSize.check E X DPY w h s).state.1 = s.1 := by
  simp only [pendingConfig.EnsureSize.check, bind_apply, receiver_apply]
  by_cases hd : (DPY.modes s.1.mode).Width = 0 ∨ (DPY.modes s.1.mode).Height = 0
  · rw [allocation_degenerate E DPY _ _ hd]
    rfl
  · rw [allocation_sized E DPY _ _ (by omega) (by omega)]
    simp only []
    split
    · simp only [bind_apply, receiver_apply, onLog_GetCrtcInfo_apply]
      cases X.crtcInfo s.2 s.1.crtc 0 with
      | none => rfl
      | some ci =>
        simp only [bind_apply, receiver_apply]
        rw [allocation_sized E DPY _ _ (by omega) (by omega)]
        rfl
    · rfl

/-- The final check returns when the mode has a size and the server answers. -/
theorem check_returned (E : Env) (X : XServer) (DPY : Display) (w h : Nat)
    (s : pendingConfig × List Request)
    (hW : 0 < (DPY.modes s.1.mode).Width) (hH : 0 < (DPY.modes s.1.mode).Height)
    (hX : (X.crtcInfo s.2 s.1.crtc 0).isSome) :
    (pendingConfig.EnsureSize.check E X DPY w h s).returned = true := by
  simp only [pendingConfig.EnsureSize.check, bind_apply, receiver_apply]
  rw [allocation_sized E DPY _ _ hW hH]
  simp only []
  split
  · simp only [bind_apply, receiver_apply, onLog_GetCrtcInfo_apply]
    obtain ⟨ci, hci⟩ := Option.isSome_iff_exists.mp hX
    rw [hci]
    simp only [bind_apply, receiver_apply]
    rw [allocation_sized E DPY _ _ hW hH]
    rfl
  · rfl

/-- The final check returns only when the mode has a size. -/
theorem check_sized (E : Env) (X : XServer) (DPY : Display) (w h : Nat)
    (s : pendingConfig × List Request)
    (hr : (pendingConfig.EnsureSize.check E X DPY w h s).returned = true) :
    0 < (DPY.modes s.1.mode).Width ∧ 0 < (DPY.modes s.1.mode).Height := by
  by_contra hd
  have hd1 : (DPY.modes s.1.mode).Width = 0 ∨ (DPY.modes s.1.mode).Height = 0 := by omega
  simp only [pendingConfig.EnsureSize.check, bind_apply, receiver_apply] at hr
  rw [allocation_degenerate E DPY _ _ hd1] at hr
  simp [Res.returned] at hr

/-- Outside the branch of equal sizes, `EnsureSize` is the switch followed by
the final check. -/
theorem EnsureSize_resize (E : Env) (X : XServer) (DPY : Display) (w h hint : Nat)
    (s : pendingConfig × List Request)
    (hne : ¬ ((DPY.modes s.1.mode).Width = w ∧ (DPY.modes s.1.mode).Height = h)) :
    pendingConfig.EnsureSize E X DPY w h hint s
      = match pendingConfig.EnsureSize.fit E DPY (DPY.modes s.1.mode) w h s with
        | .ret _ s1 => pendingConfig.EnsureSize.check E X DPY w h s1
        | .panic msg s1 => .panic msg s1 := by
  simp only [pendingConfig.EnsureSize, bind_apply, receiver_apply, hne, if_false]
  cases pendingConfig.EnsureSize.fit E DPY (DPY.modes s.1.mode) w h s <;> rfl

theorem toUInt16_half (n : Nat) (hn : n < 32768) :
    toUInt16 (Int.tdiv ((n : Nat) : Int) 2) = n / 2 := by
  rw [Int.tdiv_eq_ediv (by omega) (by omega)]
  simp only [toUInt16]
  omega

theorem toInt16_offset (a b : Nat) (hle : b ≤ a) (hlt : a - b < 32768) :
    toInt16 (toUInt16 ((a : Int) - b)) = ((a - b : Nat) : Int) := by
  simp only [toInt16, toUInt16]
  omega

/-- The switch of `EnsureSize` when the native size is at least the target
and the differences fit in an `int16`: scale 1:1 and a centred crop. -/
theorem fit_native_bigger (E : Env) (DPY : Display) (W H w h : Nat)
    (s : pendingConfig × List Request)
    (hw : w ≤ W) (hh : h ≤ H) (hW : W - w < 32768) (hH : H - h < 32768) :
    pendingConfig.EnsureSize.fit E DPY ⟨W, H⟩ w h s
      = .ret () ((s.1.SetScale E E.one E.one).setCompensation ((W - w) / 2) ((H - h) / 2), s.2) := by
  have h1 : ((W - w : Nat) : Int) ≥ 0 ∧ ((H - h : Nat) : Int) ≥ 0 := by omega
  simp only [pendingConfig.EnsureSize.fit, toInt16_offset W w hw hW, toInt16_offset H h hh hH,
    h1, and_self, if_true, bind_apply, update_apply, toUInt16_half _ hW, toUInt16_half _ hH]

theorem fitsTo_ret (E : Env) (DPY : Display) (x : E.F32) (bx bY : Nat)
    (s : pendingConfig × List Request) (c1 : pendingConfig)
    (hc : c1.crtc = s.1.crtc)
    (hg : c1.geometry
      = (s.1.mode, s.1.posX, s.1.posY, s.1.rotation, scaled E s.1.transform x x, bx, bY)) :
    fitsTo E DPY x bx bY s (.ret () (c1, s.2)) :=
  ⟨rfl, hc, hg, fun _ _ => rfl⟩

theorem fitsTo_panic (E : Env) (DPY : Display) (x : E.F32) (bx bY : Nat)
    (s : pendingConfig × List Request) (c1 : pendingConfig) (msg : String)
    (hd : (DPY.modes s.1.mode).Width = 0 ∨ (DPY.modes s.1.mode).Height = 0)
    (hc : c1.crtc = s.1.crtc)
    (hg : c1.geometry
      = (s.1.mode, s.1.posX, s.1.posY, s.1.rotation, scaled E s.1.transform x x, bx, bY)) :
    fitsTo E DPY x bx bY s (.panic msg (c1, s.2)) :=
  ⟨rfl, hc, hg, fun hW hH => by omega⟩

/-- The switch of `EnsureSize` treats every config alike: for given mode size
and target it always panics before any change, or always returns without
change, or always sets one and the same scale and compensation. -/
theorem fit_uniform (E : Env) (DPY : Display) (minfo : ModeInfo) (w h : Nat) :
    (∀ s, pendingConfig.EnsureSize.fit E DPY minfo w h s = .panic "YAHOOO1" s) ∨
    (∀ s, pendingConfig.EnsureSize.fit E DPY minfo w h s = .ret () s) ∨
    (∃ (x : E.F32) (bx bY : Nat), ∀ s,
      fitsTo E DPY x bx bY s (pendingConfig.EnsureSize.fit E DPY minfo w h s)) := by
  by_cases c1 : toInt16 (toUInt16 ((minfo.Width : Int) - w)) ≥ 0
      ∧ toInt16 (toUInt16 ((minfo.Height : Int) - h)) ≥ 0
  · right; right
    exact ⟨E.one, toUInt16 (Int.tdiv (toInt16 (toUInt16 ((minfo.Width : Int) - w))) 2),
      toUInt16 (Int.tdiv (toInt16 (toUInt16 ((minfo.Height : Int) - h))) 2), fun s => by
      simp only [pendingConfig.EnsureSize.fit]
      rw [if_pos c1]
      simp only [bind_apply, update_apply]
      exact fitsTo_ret E DPY _ _ _ s _ (by simp [pendingConfig.setCompensation])
        (by simp [pendingConfig.geometry, pendingConfig.setCompensation])⟩
  by_cases c2 : toInt16 (toUInt16 ((minfo.Width : Int) - w)) < 0
      ∧ toInt16 (toUInt16 ((minfo.Height : Int) - h)) ≤ 0
  · by_cases c2a : E.eq32 (E.div32 (E.ofUInt16 minfo.Width) (E.ofUInt16 minfo.Height))
        (E.div32 (E.ofUInt16 w) (E.ofUInt16 h)) = true
    · right; right
      exact ⟨E.add32 E.one (E.div32 (E.ofInt16 (toInt16 (-toInt16 (toUInt16 ((minfo.Width : Int) - w)))))
        (E.ofUInt16 minfo.Width)), 0, 0, fun s => by
      simp only [pendingConfig.EnsureSize.fit]
      rw [if_neg c1, if_pos c2, if_pos c2a]
      simp only [bind_apply, update_apply]
      exact fitsTo_ret E DPY _ _ _ s _ (by simp [pendingConfig.setCompensation])
        (by simp [pendingConfig.geometry, pendingConfig.setCompensation])⟩
    · by_cases c2b : toInt16 (-toInt16 (toUInt16 ((minfo.Width : Int) - w)))
          < toInt16 (-toInt16 (toUInt16 ((minfo.Height : Int) - h)))
      · left
        intro s
        simp only [pendingConfig.EnsureSize.fit]
        rw [if_neg c1, if_pos c2, if_neg c2a, if_pos c2b]
        rfl
      · right; right
        exact ⟨E.div32 (E.ofUInt16 w) (E.ofUInt16 minfo.Width), 0,
          toUInt16 (Int.tdiv (toInt16 (E.toInt16 (E.sub32 (E.mul32 (E.ofUInt16 minfo.Height)
            (E.div32 (E.ofUInt16 w) (E.ofUInt16 minfo.Width))) (E.ofUInt16 h)))) 2), fun s => by
      simp only [pendingConfig.EnsureSize.fit]
      rw [if_neg c1, if_pos c2, if_neg c2a, if_neg c2b]
      simp only [bind_apply, update_apply]
      exact fitsTo_ret E DPY _ _ _ s _ (by simp [pendingConfig.setCompensation])
        (by simp [pendingConfig.geometry, pendingConfig.setCompensation])⟩
  by_cases c3 : toInt16 (toUInt16 ((minfo.Width : Int) - w)) ≥ 0
      ∧ toInt16 (toUInt16 ((minfo.Height : Int) - h)) ≤ 0
  · right; right
    exact ⟨E.div32 (E.ofUInt16 h) (E.ofUInt16 minfo.Height),
      toUInt16 (toInt16 (E.toInt16From64 (E.ceil (E.div64 (E.toF64 (E.sub32
        (E.mul32 (E.div32 (E.ofUInt16 h) (E.ofUInt16 minfo.Height)) (E.ofUInt16 minfo.Width))
        (E.ofUInt16 w))) E.two64)))), 0, fun s => by
      simp only [pendingConfig.EnsureSize.fit]
      rw [if_neg c1, if_neg c2, if_pos c3]
      simp only [bind_apply, update_apply, receiver_apply, pure_apply]
      by_cases hd : (DPY.modes s.1.mode).Width = 0 ∨ (DPY.modes s.1.mode).Height = 0
      · rw [allocation_degenerate]
        · exact fitsTo_panic E DPY _ _ _ s _ _ hd (by simp [pendingConfig.setCompensation])
            (by simp [pendingConfig.geometry, pendingConfig.setCompensation])
        · simpa [pendingConfig.setCompensation] using hd
      · rw [allocation_sized]
        · exact fitsTo_ret E DPY _ _ _ s _ (by simp [pendingConfig.setCompensation])
            (by simp [pendingConfig.geometry, pendingConfig.setCompensation])
        · simp only [SetScale_mode, pendingConfig.setCompensation]
          omega
        · simp only [SetScale_mode, pendingConfig.setCompensation]
          omega⟩
  by_cases c4 : toInt16 (toUInt16 ((minfo.Width : Int) - w)) ≤ 0
      ∧ toInt16 (toUInt16 ((minfo.Height : Int) - h)) ≥ 0
  · right; right
    exact ⟨E.div32 (E.ofUInt16 w) (E.ofUInt16 minfo.Width), 0,
      toUInt16 (Int.tdiv (toInt16 (E.toInt16 (E.sub32 (E.mul32
        (E.div32 (E.ofUInt16 minfo.Width) (E.ofUInt16 minfo.Height)) (E.ofUInt16 w))
        (E.ofUInt16 h)))) 2), fun s => by
      simp only [pendingConfig.EnsureSize.fit]
      rw [if_neg c1, if_neg c2, if_neg c3, if_pos c4]
      simp only [bind_apply, update_apply, receiver_apply, pure_apply]
      by_cases hd : (DPY.modes s.1.mode).Width = 0 ∨ (DPY.modes s.1.mode).Height = 0
      · rw [allocation_degenerate]
        · exact fitsTo_panic E DPY _ _ _ s _ _ hd (by simp [pendingConfig.setCompensation])
            (by simp [pendingConfig.geometry, pendingConfig.setCompensation])
        · simpa [pendingConfig.setCompensation] using hd
      · rw [allocation_sized]
        · exact fitsTo_ret E DPY _ _ _ s _ (by simp [pendingConfig.setCompensation])
            (by simp [pendingConfig.geometry, pendingConfig.setCompensation])
        · simp only [SetScale_mode, pendingConfig.setCompensation]
          omega
        · simp only [SetScale_mode, pendingConfig.setCompensation]
          omega⟩
  · right; left
    intro s
    simp only [pendingConfig.EnsureSize.fit]
    rw [if_neg c1, if_neg c2, if_neg c3, if_neg c4]
    rfl

theorem EnsureSize_state_of_fit (E : Env) (X : XServer) (DPY : Display) (w h hint : Nat)
    (s : pendingConfig × List Request)
    (hne : ¬ ((DPY.modes s.1.mode).Width = w ∧ (DPY.modes s.1.mode).Height = h)) :
    (pendingConfig.EnsureSize E X DPY w h hint s).state.1
      = (pendingConfig.EnsureSize.fit E DPY (DPY.modes s.1.mode) w h s).state.1 := by
  rw [EnsureSize_resize E X DPY w h hint s hne]
  cases pendingConfig.EnsureSize.fit E DPY (DPY.modes s.1.mode) w h s with
  | ret a s1 => exact check_state E X DPY w h s1
  | panic msg s1 => rfl

theorem nativeTarget_mode (E : Env) (DPY : Display) (c : pendingConfig) :
    (nativeTarget E DPY c).mode = c.mode := by
  unfold nativeTarget pendingConfig.SetPos
  split <;> [split; skip] <;> simp [pendingConfig.setCompensation]

theorem nativeTarget_geometry (E : Env) (DPY : Display) (c : pendingConfig) :
    (nativeTarget E DPY (nativeTarget E DPY c)).geometry = (nativeTarget E DPY c).geometry := by
  unfold nativeTarget
  cases DPY.MirrorMode
  · simp [pendingConfig.geometry, pendingConfig.setCompensation, scaled]
  · simp only [if_true, pendingConfig.SetPos, pendingConfig.setCompensation]
    by_cases hp : c.posX ≠ 0 ∧ c.posY ≠ 0
    · simp [pendingConfig.geometry, hp, scaled]
    · simp [pendingConfig.geometry, hp, scaled]

/-- The first branch of `EnsureSize`, when the mode has a size. -/
theorem EnsureSize_native_sized (E : Env) (X : XServer) (DPY : Display) (w h hint : Nat)
    (s : pendingConfig × List Request)
    (hn : (DPY.modes s.1.mode).Width = w ∧ (DPY.modes s.1.mode).Height = h)
    (hW : 0 < (DPY.modes s.1.mode).Width) (hH : 0 < (DPY.modes s.1.mode).Height) :
    pendingConfig.EnsureSize E X DPY w h hint s = .ret () (nativeTarget E DPY s.1, s.2) := by
  have hm := nativeTarget_mode E DPY s.1
  simp only [pendingConfig.EnsureSize, bind_apply, receiver_apply, hn, and_self, if_true,
    update_apply]
  unfold nativeTarget at hm ⊢
  cases hmir : DPY.MirrorMode
  · rw [hmir] at hm
    simp only [Bool.false_eq_true, if_false, bind_apply, receiver_apply, pure_apply] at hm ⊢
    rw [allocation_sized E DPY _ _ (by rw [hm]; exact hW) (by rw [hm]; exact hH)]
  · rw [hmir] at hm
    simp only [if_true, bind_apply, receiver_apply, update_apply, pure_apply] at hm ⊢
    rw [allocation_sized E DPY _ _ (by rw [hm]; exact hW) (by rw [hm]; exact hH)]

/-- The first branch of `EnsureSize`, when the mode has no size. -/
theorem EnsureSize_native_degenerate (E : Env) (X : XServer) (DPY : Display) (w h hint : Nat)
    (s : pendingConfig × List Request)
    (hn : (DPY.modes s.1.mode).Width = w ∧ (DPY.modes s.1.mode).Height = h)
    (hd : (DPY.modes s.1.mode).Width = 0 ∨ (DPY.modes s.1.mode).Height = 0) :
    pendingConfig.EnsureSize E X DPY w h hint s
      = .panic "No modeinfo" (nativeTarget E DPY s.1, s.2) := by
  have hm := nativeTarget_mode E DPY s.1
  simp only [pendingConfig.EnsureSize, bind_apply, receiver_apply, hn, and_self, if_true,
    update_apply]
  unfold nativeTarget at hm ⊢
  cases hmir : DPY.MirrorMode
  · rw [hmir] at hm
    simp only [Bool.false_eq_true, if_false, bind_apply, receiver_apply, pure_apply] at hm ⊢
    rw [allocation_degenerate E DPY _ _ (by rw [hm]; exact hd)]
  · rw [hmir] at hm
    simp only [if_true, bind_apply, receiver_apply, update_apply, pure_apply] at hm ⊢
    rw [allocation_degenerate E DPY _ _ (by rw [hm]; exact hd)]

/-! ## Claims -/

/-- C1 (the code departs from the claim): on the clean config of the sample
output (mode 1, mask 0) `apply` sends the combined mode/position/rotation write
`SetCrtcConfig` although no geometry bit is dirty; the history afterwards holds
that write followed by the read-back of the CRTC. -/
theorem C1_apply_writes_geometry_with_clean_mask :
    sampleConfig.mask = 0 ∧ sampleConfig.mode ≠ 0 ∧
    sampleConfig.apply sampleEnv sampleServer sampleDisplay []
      = .ret none [Request.GetCrtcInfo 1 0, Request.SetCrtcConfig 1 0 0 0 0 1 1 [7]] := by
  decide

/-- C2: whatever the output and the mirror flag, when the server answers the
CRTC query with a rotation that has a rotation bit set and answers the
transform query, `NewPendingConfigWithoutCache` returns a config with mask 0. -/
theorem C2_fresh_config_has_empty_mask (X : XServer) (DPY : Display) (op : Output)
    (log : List Request)
    (hinfo : ∀ crtc, ∃ ci, X.crtcInfo log crtc DPY.LastConfigTimeStamp = some ci
      ∧ ci.Rotation &&& 0xf ≠ 0)
    (htrans : ∀ l crtc, ∃ ti, X.crtcTransform l crtc = some ti) :
    ∃ c log1, NewPendingConfigWithoutCache X DPY op log = .ret c log1 ∧ c.mask = 0 := by
  simp only [NewPendingConfigWithoutCache, bind_apply, pure_apply, GetCrtcInfo_apply,
    GetCrtcTransform_apply, raise_apply]
  generalize (if op.crtc ≠ 0 then op.crtc else _ : Nat) = k
  obtain ⟨ci, hci, hrot⟩ := hinfo k
  obtain ⟨ti, hti⟩ := htrans (Request.GetCrtcInfo k DPY.LastConfigTimeStamp :: log) k
  simp only [hci, hrot, if_false, bind_apply, GetCrtcTransform_apply, hti, pure_apply]
  split <;> exact ⟨_, _, rfl, rfl⟩

/-- Witness of C2 on the sample output and server. -/
theorem C2_fresh_config_has_empty_mask_witness :
    ∃ c log1, NewPendingConfigWithoutCache sampleServer sampleDisplay sampleOutput [] = .ret c log1
      ∧ c.mask = 0 :=
  C2_fresh_config_has_empty_mask sampleServer sampleDisplay sampleOutput []
    (fun _ => ⟨_, rfl, by decide⟩) (fun _ _ => ⟨_, rfl⟩)

/-- C3 (the code departs from the claim): on a config at position (0, 0) with
an empty mask, `SetPos(5, 0)` differs from the stored position on the x axis
only; the config comes back unchanged, position (0, 0) and mask 0. -/
theorem C3_SetPos_ignores_single_axis_change :
    ((5 : Int), (0 : Int)) ≠ (sampleConfig.posX, sampleConfig.posY) ∧
    sampleConfig.SetPos 5 0 = sampleConfig ∧
    (sampleConfig.SetPos 5 0).posX = 0 ∧
    (sampleConfig.SetPos 5 0).mask &&& _PendingMaskPos = 0 := by
  decide

/-- C4 (the code departs from the claim): on a config scaled by 2 with the
bilinear filter, `SetScale(3, 3)` stores the new diagonal (3 in fixed point is
196608, 2 is 131072) but leaves the mask at 0: the transform bit is not set. -/
theorem C4_SetScale_keeps_mask_when_filter_is_kept :
    sampleEnv.double2fixed (sampleEnv.ofUInt16 3) ≠ scaledConfig.transform.Matrix11 ∧
    (scaledConfig.SetScale sampleEnv (sampleEnv.ofUInt16 3) (sampleEnv.ofUInt16 3)).transform
      = ⟨196608, 0, 0, 0, 196608, 0, 0, 0, 65536⟩ ∧
    (scaledConfig.SetScale sampleEnv (sampleEnv.ofUInt16 3) (sampleEnv.ofUInt16 3)).mask = 0 := by
  decide

/-- C5 (the code departs from the claim): on the sample config (rotation 1,
mask 0) `SetRotation(0)` fails, as the claim says, but the config it leaves has
the rotation bit (8) set in the mask; the claim says no field differs. Line 285
marks the mask before line 287 checks the rotation. -/
theorem C5_SetRotation_zero_dirties_mask :
    (0 : Nat) &&& 0xf = 0 ∧ sampleConfig.rotation = 1 ∧ sampleConfig.mask = 0 ∧
    pendingConfig.SetRotation sampleConfig 0
      = .panic "SetRotation Error.." { sampleConfig with mask := 8 } := by
  decide

/-- C6: each of `SetMode`, `SetPos`, `SetRotation` and `SetTransform`, given the
value the config already stores, returns the config unchanged in every field,
the mask included. -/
theorem C6_setters_keep_config_on_stored_value (c : pendingConfig) (params : List Int) :
    c.SetMode c.mode = c ∧ c.SetPos c.posX c.posY = c ∧
    c.SetRotation c.rotation = .ret () c ∧
    c.SetTransform c.transform c.filterName params = c := by
  simp [pendingConfig.SetMode, pendingConfig.SetPos, pendingConfig.SetRotation,
    pendingConfig.SetTransform]

/-- C7: when the selected mode has native size W x H, both positive,
`EnsureSize(W, H, hint)` returns, without touching the server, a config whose
transform diagonal is fixed-point 1 three times and whose border
compensation is (0, 0). -/
theorem C7_EnsureSize_native_size (E : Env) (X : XServer) (DPY : Display) (c : pendingConfig)
    (W H hint : Nat) (log : List Request)
    (hmode : DPY.modes c.mode = ⟨W, H⟩) (hW : 0 < W) (hH : 0 < H) :
    ∃ c1, pendingConfig.EnsureSize E X DPY W H hint (c, log) = .ret () (c1, log) ∧
      c1.transform.Matrix11 = E.double2fixed E.one ∧
      c1.transform.Matrix22 = E.double2fixed E.one ∧
      c1.transform.Matrix33 = E.double2fixed E.one ∧
      c1.borderCompensationX = 0 ∧ c1.borderCompensationY = 0 := by
  have key : ∀ (c1 : pendingConfig) (s : pendingConfig × List Request), c1.mode = c.mode →
      allocation E DPY c1 s = .ret (c1.box E DPY) s := by
    intro c1 s h
    apply allocation_sized <;> rw [h, hmode] <;> assumption
  have hmode1 : ((c.SetScale E E.one E.one).setCompensation 0 0).mode = c.mode := by
    simp [pendingConfig.setCompensation]
  have hmode2 : (((c.SetScale E E.one E.one).setCompensation 0 0).SetPos 0 0).mode = c.mode := by
    unfold pendingConfig.SetPos
    split <;> simp [pendingConfig.setCompensation]
  simp only [pendingConfig.EnsureSize, bind_apply, receiver_apply, hmode, and_self, if_true,
    update_apply]
  cases hm : DPY.MirrorMode
  · simp only [Bool.false_eq_true, if_false, bind_apply, update_apply, receiver_apply,
      pure_apply]
    rw [key _ _ hmode1]
    refine ⟨_, rfl, ?_⟩
    simp [pendingConfig.setCompensation, scaled]
  · simp only [if_true, bind_apply, update_apply, receiver_apply, pure_apply]
    rw [key]
    · refine ⟨_, rfl, ?_⟩
      simp only [pendingConfig.SetPos]
      split <;> simp [pendingConfig.setCompensation, scaled]
    · exact hmode2

/-- Witness of C7: mode 1 is 1920 x 1080 and so is the target. -/
theorem C7_EnsureSize_native_size_witness :
    ∃ c1, pendingConfig.EnsureSize sampleEnv sampleServer sampleDisplay 1920 1080
        EnsureSizeHintAuto (sampleConfig, []) = .ret () (c1, []) ∧
      c1.transform.Matrix11 = sampleEnv.double2fixed sampleEnv.one ∧
      c1.transform.Matrix22 = sampleEnv.double2fixed sampleEnv.one ∧
      c1.transform.Matrix33 = sampleEnv.double2fixed sampleEnv.one ∧
      c1.borderCompensationX = 0 ∧ c1.borderCompensationY = 0 :=
  C7_EnsureSize_native_size sampleEnv sampleServer sampleDisplay sampleConfig 1920 1080
    EnsureSizeHintAuto [] rfl (by decide) (by decide)

/-- C8 as stated fails: mode 3 is 40000 x 1000 and the target is 1000 x 1000,
so the claim gives compensation (19500, 0) and scale 1:1. The width
difference 39000 wraps to a negative `int16`, the upscale branch is taken,
and the config ends with compensation (0, 65049) and a diagonal of 1638
(0.025 in fixed point) instead of 65536. -/
theorem C8_EnsureSize_wide_mode_counterexample :
    (sampleDisplay.modes 3 = ⟨40000, 1000⟩ ∧ 1000 ≤ 40000 ∧ 1000 ≤ 1000 ∧ (40000 - 1000) / 2 = 19500) ∧
    (pendingConfig.EnsureSize sampleEnv sampleServer sampleDisplay 1000 1000 EnsureSizeHintAuto
      ({ sampleConfig with mode := 3 }, [])).state.1.borderCompensationX = 0 ∧
    (pendingConfig.EnsureSize sampleEnv sampleServer sampleDisplay 1000 1000 EnsureSizeHintAuto
      ({ sampleConfig with mode := 3 }, [])).state.1.borderCompensationY = 65049 ∧
    (pendingConfig.EnsureSize sampleEnv sampleServer sampleDisplay 1000 1000 EnsureSizeHintAuto
      ({ sampleConfig with mode := 3 }, [])).state.1.transform.Matrix11 = 1638 ∧
    sampleEnv.double2fixed sampleEnv.one = 65536 := by
  decide

/-- C8 amended: when the native size W x H is at least the target (w, h) in
both dimensions, differs from it, and exceeds it by less than 32768 in each
dimension, `EnsureSize(w, h, hint)` leaves border compensation
(floor((W - w)/2), floor((H - h)/2)) and a transform diagonal of fixed-point 1;
it returns when the mode has a size and the server answers the CRTC query
made when the allocation misses the target. -/
theorem C8_EnsureSize_native_bigger (E : Env) (X : XServer) (DPY : Display) (c : pendingConfig)
    (W H w h hint : Nat) (log : List Request)
    (hmode : DPY.modes c.mode = ⟨W, H⟩) (hw : w ≤ W) (hh : h ≤ H) (hne : (W, H) ≠ (w, h))
    (hW : W - w < 32768) (hH : H - h < 32768) :
    (pendingConfig.EnsureSize E X DPY w h hint (c, log)).state.1.borderCompensationX = (W - w) / 2 ∧
    (pendingConfig.EnsureSize E X DPY w h hint (c, log)).state.1.borderCompensationY = (H - h) / 2 ∧
    (pendingConfig.EnsureSize E X DPY w h hint (c, log)).state.1.transform.Matrix11
      = E.double2fixed E.one ∧
    (pendingConfig.EnsureSize E X DPY w h hint (c, log)).state.1.transform.Matrix22
      = E.double2fixed E.one ∧
    (pendingConfig.EnsureSize E X DPY w h hint (c, log)).state.1.transform.Matrix33
      = E.double2fixed E.one ∧
    (0 < W → 0 < H → (X.crtcInfo log c.crtc 0).isSome →
      (pendingConfig.EnsureSize E X DPY w h hint (c, log)).returned = true) := by
  have hcond : ¬ ((DPY.modes (c, log).1.mode).Width = w ∧ (DPY.modes (c, log).1.mode).Height = h) := by
    rw [hmode]
    rintro ⟨rfl, rfl⟩
    exact hne rfl
  rw [EnsureSize_resize E X DPY w h hint (c, log) hcond, hmode,
    fit_native_bigger E DPY W H w h (c, log) hw hh hW hH]
  simp only [check_state]
  refine ⟨by simp [pendingConfig.setCompensation], by simp [pendingConfig.setCompensation],
    by simp [pendingConfig.setCompensation, scaled], by simp [pendingConfig.setCompensation, scaled],
    by simp [pendingConfig.setCompensation, scaled], ?_⟩
  intro h0W h0H hX
  apply check_returned
  · simpa [pendingConfig.setCompensation, hmode] using h0W
  · simpa [pendingConfig.setCompensation, hmode] using h0H
  · simpa [pendingConfig.setCompensation] using hX

/-- Witness of C8 amended: mode 2 is 1024 x 768 and the target is 800 x 600;
the compensation is (112, 84). -/
theorem C8_EnsureSize_native_bigger_witness :
    (pendingConfig.EnsureSize sampleEnv sampleServer sampleDisplay 800 600 EnsureSizeHintAuto
      ({ sampleConfig with mode := 2 }, [])).state.1.borderCompensationX = (1024 - 800) / 2 ∧
    (pendingConfig.EnsureSize sampleEnv sampleServer sampleDisplay 800 600 EnsureSizeHintAuto
      ({ sampleConfig with mode := 2 }, [])).state.1.borderCompensationY = (768 - 600) / 2 :=
  have h := C8_EnsureSize_native_bigger sampleEnv sampleServer sampleDisplay
    { sampleConfig with mode := 2 } 1024 768 800 600 EnsureSizeHintAuto [] rfl (by decide)
    (by decide) (by decide) (by decide) (by decide)
  ⟨h.1, h.2.1⟩

/-- C9: when `EnsureSize(w, h, hint)` has returned on a config, leaving `c1`,
then `c1` has an applied allocation (the mode is not degenerate), and a
second `EnsureSize(w, h, hint)` leaves a config with that same applied
allocation; the second call returns when the server answers the CRTC query
made if the allocation misses the target. -/
theorem C9_EnsureSize_idempotent (E : Env) (X : XServer) (DPY : Display)
    (c c1 : pendingConfig) (w h hint : Nat) (log log1 : List Request)
    (h1 : pendingConfig.EnsureSize E X DPY w h hint (c, log) = .ret () (c1, log1)) :
    (∃ rect, c1.appliedAllocation E DPY = .ok rect ∧
      (pendingConfig.EnsureSize E X DPY w h hint (c1, log1)).state.1.appliedAllocation E DPY
        = .ok rect) ∧
    ((X.crtcInfo log1 c1.crtc 0).isSome →
      (pendingConfig.EnsureSize E X DPY w h hint (c1, log1)).returned = true) := by
  -- it is enough to know the geometry of the second result and that the mode has a size
  suffices hkey : (0 < (DPY.modes c1.mode).Width ∧ 0 < (DPY.modes c1.mode).Height) ∧
      (pendingConfig.EnsureSize E X DPY w h hint (c1, log1)).state.1.geometry = c1.geometry ∧
      ((X.crtcInfo log1 c1.crtc 0).isSome →
        (pendingConfig.EnsureSize E X DPY w h hint (c1, log1)).returned = true) by
    obtain ⟨⟨hW, hH⟩, hg, hr⟩ := hkey
    refine ⟨⟨c1.box E DPY, ?_, ?_⟩, hr⟩
    · rw [appliedAllocation_eq, if_neg (by omega)]
    · rw [appliedAllocation_congr E DPY _ _ hg, appliedAllocation_eq, if_neg (by omega)]
  by_cases hn : (DPY.modes c.mode).Width = w ∧ (DPY.modes c.mode).Height = h
  · -- the native size is the target
    by_cases hd : (DPY.modes c.mode).Width = 0 ∨ (DPY.modes c.mode).Height = 0
    · rw [EnsureSize_native_degenerate E X DPY w h hint (c, log) hn hd] at h1
      simp at h1
    · have hW : 0 < (DPY.modes c.mode).Width := Nat.pos_of_ne_zero fun h0 => hd (Or.inl h0)
      have hH : 0 < (DPY.modes c.mode).Height := Nat.pos_of_ne_zero fun h0 => hd (Or.inr h0)
      rw [EnsureSize_native_sized E X DPY w h hint (c, log) hn hW hH] at h1
      simp only [Res.ret.injEq, Prod.mk.injEq, true_and] at h1
      obtain ⟨hc, hl⟩ := h1
      subst hc
      have hm := nativeTarget_mode E DPY c
      have hsecond := EnsureSize_native_sized E X DPY w h hint (nativeTarget E DPY c, log1)
        (by simpa only [hm] using hn) (by simpa only [hm] using hW) (by simpa only [hm] using hH)
      rw [hsecond]
      refine ⟨by rw [hm]; exact ⟨hW, hH⟩, nativeTarget_geometry E DPY c, fun _ => rfl⟩
  · -- the switch runs
    rw [EnsureSize_resize E X DPY w h hint (c, log) hn] at h1
    generalize hfit : pendingConfig.EnsureSize.fit E DPY (DPY.modes (c, log).1.mode) w h (c, log)
      = r at h1
    cases r with
    | panic msg s1 => simp at h1
    | ret a s1 =>
      simp only [] at h1
      have hc1 : s1.1 = c1 := by
        have := check_state E X DPY w h s1
        rw [h1] at this
        exact this.symm
      have hsz := check_sized E X DPY w h s1 (by rw [h1]; rfl)
      rw [hc1] at hsz
      rcases fit_uniform E DPY (DPY.modes c.mode) w h with hp | hr | ⟨x, bx, bY, hf⟩
      · have := hp (c, log)
        rw [hfit] at this
        simp at this
      · have := hr (c, log)
        rw [hfit] at this
        simp only [Res.ret.injEq, true_and] at this
        subst this
        simp only [] at hc1
        subst hc1
        have hstate := EnsureSize_state_of_fit E X DPY w h hint (c, log1) hn
        refine ⟨hsz, ?_, fun hX => ?_⟩
        · rw [hstate, hr]
          rfl
        · rw [EnsureSize_resize E X DPY w h hint (c, log1) hn, hr]
          exact check_returned E X DPY w h (c, log1) hsz.1 hsz.2 hX
      · have hf1 := hf (c, log)
        rw [hfit] at hf1
        obtain ⟨_, _, hg1, _⟩ := hf1
        simp only [Res.state, hc1, pendingConfig.geometry, Prod.mk.injEq] at hg1
        obtain ⟨gm, gx, gy, gr, gt, gbx, gby⟩ := hg1
        have hn1 : ¬ ((DPY.modes (c1, log1).1.mode).Width = w
            ∧ (DPY.modes (c1, log1).1.mode).Height = h) := by
          simpa only [gm] using hn
        have hmodes : DPY.modes (c1, log1).1.mode = DPY.modes c.mode := by
          simp only [gm]
        obtain ⟨hl2, hk2, hg2, hr2⟩ := hf (c1, log1)
        refine ⟨hsz, ?_, fun hX => ?_⟩
        · rw [EnsureSize_state_of_fit E X DPY w h hint (c1, log1) hn1, hmodes, hg2]
          simp only [pendingConfig.geometry, Prod.mk.injEq, gt, scaled_scaled, gbx, gby,
            and_self]
        · rw [EnsureSize_resize E X DPY w h hint (c1, log1) hn1, hmodes]
          have hr3 := hr2 hsz.1 hsz.2
          generalize pendingConfig.EnsureSize.fit E DPY (DPY.modes c.mode) w h (c1, log1)
            = r2 at hl2 hk2 hg2 hr3 ⊢
          cases r2 with
          | panic msg s2 => simp [Res.returned] at hr3
          | ret a s2 =>
            simp only [Res.state] at hl2 hk2 hg2
            have hm2 : s2.1.mode = c1.mode := congrArg Prod.fst hg2
            apply check_returned
            · rw [hm2]; exact hsz.1
            · rw [hm2]; exact hsz.2
            · rw [hl2, hk2]; exact hX

/-- Witness of C9: mode 2 is 1024 x 768, the target is 800 x 600; the first
call leaves compensation (112, 84) and the second call keeps the allocation. -/
theorem C9_EnsureSize_idempotent_witness :
    pendingConfig.EnsureSize sampleEnv sampleServer sampleDisplay 800 600 EnsureSizeHintAuto
        (smallConfig, [])
      = .ret () ({ smallConfig with borderCompensationX := 112, borderCompensationY := 84 }, []) ∧
    ∃ rect,
      pendingConfig.appliedAllocation sampleEnv sampleDisplay
        { smallConfig with borderCompensationX := 112, borderCompensationY := 84 } = .ok rect ∧
      (pendingConfig.EnsureSize sampleEnv sampleServer sampleDisplay 800 600 EnsureSizeHintAuto
        ({ smallConfig with borderCompensationX := 112, borderCompensationY := 84 },
          [])).state.1.appliedAllocation sampleEnv sampleDisplay = .ok rect :=
  ⟨by decide,
    (C9_EnsureSize_idempotent sampleEnv sampleServer sampleDisplay smallConfig
      { smallConfig with borderCompensationX := 112, borderCompensationY := 84 }
      800 600 EnsureSizeHintAuto [] [] (by decide)).1⟩

/-- While no output holds a draft with a non-zero mask, the loop of
`ApplyChanged` over the outputs leaves `stopRun` set. -/
theorem stopRun_of_clean (outputs : List Output)
    (h : ∀ op ∈ outputs, ∀ c, op.pendingConfig = some c → c.mask = 0) :
    (outputs.any fun op =>
      match op.pendingConfig with
      | some c => c.mask != 0
      | none => false) = false := by
  rw [List.any_eq_false]
  intro op hop
  cases hc : op.pendingConfig with
  | none => simp
  | some c => simp [h op hop c hc]

/-- C10: when no output holds a draft with a non-zero mask, `ApplyChanged`
leaves the display with all its outputs as it was, and sends nothing but the
server grab and its release: no gamma, transform, CRTC-config, screen-size
or primary-output write. Running it twice leaves the display of one run. -/
theorem C10_ApplyChanged_clean (E : Env) (X : XServer) (s : World)
    (h : ∀ op ∈ s.1.Outputs, ∀ c, op.pendingConfig = some c → c.mask = 0) :
    (Display.ApplyChanged E X s).1 = s.1 ∧
    (Display.ApplyChanged E X s).2 = Request.UngrabServer :: Request.GrabServer :: s.2 ∧
    (Display.ApplyChanged E X s).2.filter Request.isWrite = s.2.filter Request.isWrite ∧
    (Display.ApplyChanged E X (Display.ApplyChanged E X s)).1 = (Display.ApplyChanged E X s).1 ∧
    (Display.ApplyChanged E X (Display.ApplyChanged E X s)).2.filter Request.isWrite
      = (Display.ApplyChanged E X s).2.filter Request.isWrite := by
  have once : ∀ t : World, (∀ op ∈ t.1.Outputs, ∀ c, op.pendingConfig = some c → c.mask = 0) →
      Display.ApplyChanged E X t = (t.1, Request.UngrabServer :: Request.GrabServer :: t.2) := by
    intro t ht
    simp only [Display.ApplyChanged, Display.ApplyChanged.body, bind_apply, display,
      stopRun_of_clean t.1.Outputs ht, Bool.not_false, if_true, pure_apply, Res.state]
  have h2 : ∀ op ∈ (Display.ApplyChanged E X s).1.Outputs, ∀ c,
      op.pendingConfig = some c → c.mask = 0 := by
    rw [once s h]
    exact h
  rw [once _ h2, once s h]
  simp [Request.isWrite]

/-- Witness of C10: the sample display whose output holds a clean draft. -/
theorem C10_ApplyChanged_clean_witness :
    (Display.ApplyChanged sampleEnv sampleServer (draftDisplay, [])).2
      = [Request.UngrabServer, Request.GrabServer] :=
  (C10_ApplyChanged_clean sampleEnv sampleServer (draftDisplay, []) (by
    intro op hop c hc
    simp only [draftDisplay, List.mem_singleton] at hop
    subst hop
    simp only [Option.some.injEq] at hc
    subst hc
    rfl)).2.1

/-! ## Lemmas on adjustScreenSize -/

/-- The resize branch of `adjustScreenSize`, when both loops return. -/
theorem adjustScreenSize_resize (E : Env) (X : XServer) (s s1 s2 : World) (w h : Nat)
    (tmp : List Nat)
    (hb : Display.adjustScreenSize.bound E X (List.range s.1.Outputs.length) (0, 0)
      (s.1, Request.stopListen :: s.2) = .ret (w, h) s1)
    (hcond : Int.natAbs ((w : Int) - s1.1.Width) ≥ 4 ∨ Int.natAbs ((h : Int) - s1.1.Height) ≥ 4)
    (hc : Display.adjustScreenSize.close E X w h (List.range s.1.Outputs.length) [] s1
      = .ret tmp s2) :
    Display.adjustScreenSize E X s
      = .ret tmp ({ s2.1 with Width := w, Height := h },
          Request.startListen :: Request.SetScreenSize w h :: s2.2) := by
  simp only [Display.adjustScreenSize, bind_apply, Display.stopListen, onLog, send_apply,
    deferring, display, hb, hcond, if_true, hc, Display.setScreenSize, pure_apply,
    Display.startListen]

/-- The snap branch of `adjustScreenSize`, when the first loop returns. -/
theorem adjustScreenSize_snap (E : Env) (X : XServer) (s s1 : World) (w h : Nat)
    (hb : Display.adjustScreenSize.bound E X (List.range s.1.Outputs.length) (0, 0)
      (s.1, Request.stopListen :: s.2) = .ret (w, h) s1)
    (hcond : ¬ (Int.natAbs ((w : Int) - s1.1.Width) ≥ 4
      ∨ Int.natAbs ((h : Int) - s1.1.Height) ≥ 4)) :
    Display.adjustScreenSize E X s
      = .ret []
          ({ s1.1 with
              Width := toUInt16 ((w : Int) + toUInt16 (Int.natAbs ((w : Int) - s1.1.Width)))
              Height := toUInt16 ((h : Int) + toUInt16 (Int.natAbs ((h : Int) - s1.1.Height))) },
            Request.startListen ::
              Request.SetScreenSize
                (toUInt16 ((w : Int) + toUInt16 (Int.natAbs ((w : Int) - s1.1.Width))))
                (toUInt16 ((h : Int) + toUInt16 (Int.natAbs ((h : Int) - s1.1.Height)))) ::
              s1.2) := by
  simp only [Display.adjustScreenSize, bind_apply, Display.stopListen, onLog, send_apply,
    deferring, display, hb, hcond, if_false, Display.setScreenSize, pure_apply,
    Display.startListen]

theorem allocation_state {σ : Type} (E : Env) (DPY : Display) (c : pendingConfig) (s : σ) :
    (allocation E DPY c s).state = s := by
  unfold allocation
  split <;> rfl

/-- The function `pendingAllocation` leaves the screen size of the display and
the number of its outputs alone. -/
theorem pendingAllocation_screen (E : Env) (X : XServer) (i : Nat) (s : World) :
    (Output.pendingAllocation E X i s).state.1.Width = s.1.Width ∧
    (Output.pendingAllocation E X i s).state.1.Height = s.1.Height ∧
    (Output.pendingAllocation E X i s).state.1.Outputs.length = s.1.Outputs.length := by
  simp only [Output.pendingAllocation, bind_apply, getOutput]
  cases s.1.Outputs[i]? with
  | none => exact ⟨rfl, rfl, rfl⟩
  | some op =>
    simp only []
    cases op.Opened with
    | false => exact ⟨rfl, rfl, rfl⟩
    | true =>
      simp only [if_true]
      cases op.pendingConfig with
      | some c =>
        simp only [bind_apply, display]
        rw [allocation_state]
        exact ⟨rfl, rfl, rfl⟩
      | none =>
        simp only [bind_apply, display, onLog]
        generalize NewPendingConfig X s.1 op s.2 = r
        cases r with
        | panic msg log => exact ⟨rfl, rfl, rfl⟩
        | ret c log =>
          simp only []
          by_cases hd : (s.1.modes c.mode).Width = 0 ∨ (s.1.modes c.mode).Height = 0
          · rw [allocation_degenerate E _ _ _ hd]
            exact ⟨rfl, rfl, rfl⟩
          · rw [allocation_sized E _ _ _ (by omega) (by omega)]
            exact ⟨rfl, rfl, List.length_modify _ _ _⟩

/-- The first loop of `adjustScreenSize` leaves the screen size of the display
and the number of its outputs alone. -/
theorem bound_screen (E : Env) (X : XServer) (is : List Nat) :
    ∀ (wh : Nat × Nat) (s : World),
      (Display.adjustScreenSize.bound E X is wh s).state.1.Width = s.1.Width ∧
      (Display.adjustScreenSize.bound E X is wh s).state.1.Height = s.1.Height ∧
      (Display.adjustScreenSize.bound E X is wh s).state.1.Outputs.length
        = s.1.Outputs.length := by
  induction is with
  | nil => intro wh s; exact ⟨rfl, rfl, rfl⟩
  | cons i rest ih =>
    intro wh s
    obtain ⟨w, h⟩ := wh
    simp only [Display.adjustScreenSize.bound, bind_apply]
    have hpa := pendingAllocation_screen E X i s
    generalize Output.pendingAllocation E X i s = r at hpa ⊢
    cases r with
    | panic msg s1 => exact hpa
    | ret b s1 =>
      simp only [Res.state] at hpa
      simp only []
      rw [(ih _ s1).1, (ih _ s1).2.1, (ih _ s1).2.2]
      exact hpa

/-! ## Lemmas on setOpened -/

theorem NewPendingConfig_assign (X : XServer) (d : Display) (i : Nat) (f : Output → Output)
    (op : Output) : NewPendingConfig X (d.assign i f) op = NewPendingConfig X d op := rfl

/-- The constructor returns when the server answers its two queries. -/
theorem NewPendingConfig_returns (X : XServer) (DPY : Display) (op : Output)
    (log : List Request)
    (hinfo : ∀ l k ts, ∃ ci, X.crtcInfo l k ts = some ci ∧ ci.Rotation &&& 0xf ≠ 0)
    (htrans : ∀ l k, ∃ ti, X.crtcTransform l k = some ti) :
    ∃ c log1, NewPendingConfig X DPY op log = .ret c log1 := by
  simp only [NewPendingConfig]
  cases op.pendingConfig with
  | some c => exact ⟨c, log, rfl⟩
  | none =>
    simp only [NewPendingConfigWithoutCache, bind_apply, pure_apply, GetCrtcInfo_apply,
      GetCrtcTransform_apply, raise_apply]
    generalize (if op.crtc ≠ 0 then op.crtc else _ : Nat) = k
    obtain ⟨ci, hci, hrot⟩ := hinfo log k DPY.LastConfigTimeStamp
    obtain ⟨ti, hti⟩ := htrans (Request.GetCrtcInfo k DPY.LastConfigTimeStamp :: log) k
    simp only [hci, hrot, if_false, bind_apply, GetCrtcTransform_apply, hti, pure_apply]
    split <;> exact ⟨_, _, rfl⟩

/-- The method `apply` on a config without mode: one disabling write. -/
theorem apply_disable (E : Env) (X : XServer) (DPY : Display) (c : pendingConfig)
    (log : List Request) (hmode : c.mode = 0) :
    c.apply E X DPY log
      = .ret (if X.accepts log (Request.SetCrtcConfig c.crtc TimeCurrentTime
            DPY.LastConfigTimeStamp 0 0 0 c.rotation []) = true then none
          else some "SetCrtcConfig")
        (Request.SetCrtcConfig c.crtc TimeCurrentTime DPY.LastConfigTimeStamp 0 0 0
          c.rotation [] :: log) := by
  simp only [pendingConfig.apply, hmode, if_true, bind_apply, write, history_apply, send_apply,
    pure_apply]

theorem SetMode_zero (c : pendingConfig) :
    (c.SetMode 0).mode = 0 ∧ (c.SetMode 0).crtc = c.crtc ∧ (c.SetMode 0).rotation = c.rotation := by
  unfold pendingConfig.SetMode
  split
  · exact ⟨rfl, rfl, rfl⟩
  · rename_i h
    simp only [ne_eq, not_not] at h
    exact ⟨h, rfl, rfl⟩

/-- The method `setOpened(false)` on an open output: the config of the output
is saved and the CRTC is disabled by one write. -/
theorem setOpened_false_eq (E : Env) (X : XServer) (i : Nat) (s : World) (op : Output)
    (config : pendingConfig) (log0 : List Request)
    (hop : s.1.Outputs[i]? = some op) (hopen : op.Opened = true)
    (hnew : NewPendingConfig X s.1 op s.2 = .ret config log0) :
    Output.setOpened E X i false s
      = .ret () (s.1.closeOutput i config,
          Request.SetCrtcConfig config.crtc TimeCurrentTime s.1.LastConfigTimeStamp 0 0 0
            config.rotation [] :: log0) := by
  simp only [Output.setOpened, bind_apply, getOutput, hop, hopen, Bool.true_eq_false, if_false,
    setOutput, display, onLog, NewPendingConfig_assign, hnew]
  simp only [Bool.false_eq_true, if_false, bind_apply, display, onLog, NewPendingConfig_assign,
    hnew, setOutput, apply_disable E X _ _ _ (SetMode_zero config).1, pure_apply,
    (SetMode_zero config).2.1, (SetMode_zero config).2.2]
  rfl

/-! ## Lemmas on the closing loop -/

theorem closeOutput_getElem_ne (d : Display) (i j : Nat) (config : pendingConfig) (h : i ≠ j) :
    (d.closeOutput i config).Outputs[j]? = d.Outputs[j]? := by
  simp only [Display.closeOutput, Display.assign, List.getElem?_modify_ne _ _ h]

theorem closeOutput_getElem_eq (d : Display) (i : Nat) (config : pendingConfig) (op : Output)
    (h : d.Outputs[i]? = some op) :
    (d.closeOutput i config).Outputs[i]?
      = some { op with Opened := false, pendingConfig := none,
                       savedConfig := some (ClonePendingConfig config) } := by
  simp only [Display.closeOutput, Display.assign, List.getElem?_modify_eq, h, Option.map_eq_map,
    Option.map_some']

theorem bind_bind {σ α β γ : Type} (m : M σ α) (f : α → M σ β) (g : β → M σ γ) :
    (m >>= f) >>= g = m >>= fun a => f a >>= g := by
  funext s
  simp only [bind_apply]
  cases m s <;> rfl

theorem pure_bind_apply {σ α β : Type} (a : α) (f : α → M σ β) :
    (pure a : M σ α) >>= f = f a := by
  funext s
  rfl

/-- The closing loop of `adjustScreenSize` runs its first round, then the rest. -/
theorem close_cons_eq (E : Env) (X : XServer) (w h : Nat) (i : Nat) (rest acc : List Nat) :
    Display.adjustScreenSize.close E X w h (i :: rest) acc
      = Display.adjustScreenSize.close E X w h [i] acc
          >>= fun a => Display.adjustScreenSize.close E X w h rest a := by
  funext s
  simp only [Display.adjustScreenSize.close, bind_apply, getOutput, display,
    onLog_GetCrtcInfo_apply, pure_apply]
  cases s.1.Outputs[i]? with
  | none => rfl
  | some op =>
    simp only []
    by_cases hc : op.Opened = true ∧ some i ≠ s.1.MirrorOutput
    · simp only [if_pos hc, bind_apply, onLog_GetCrtcInfo_apply, display, pure_apply,
        raise_apply]
      cases X.crtcInfo s.2 op.crtc 0 with
      | none => rfl
      | some info =>
        simp only [bind_apply, display, pure_apply]
        by_cases hfit : DDE.max op.Allocation.Width info.Width > DDE.min w s.1.Width
            ∨ DDE.max op.Allocation.Height info.Height > DDE.min h s.1.Height
        · simp only [if_pos hfit, bind_apply, pure_apply]
          generalize Output.setOpened E X i false _ = r
          cases r <;> rfl
        · simp only [if_neg hfit, bind_apply, pure_apply]
    · simp only [if_neg hc, bind_apply, pure_apply]

theorem close_append (E : Env) (X : XServer) (w h : Nat) (is js : List Nat) :
    ∀ acc, Display.adjustScreenSize.close E X w h (is ++ js) acc
      = Display.adjustScreenSize.close E X w h is acc
          >>= fun a => Display.adjustScreenSize.close E X w h js a := by
  induction is with
  | nil =>
    intro acc
    rw [List.nil_append]
    show _ = (pure acc : M World (List Nat)) >>= _
    rw [pure_bind_apply]
  | cons i rest ih =>
    intro acc
    rw [List.cons_append, close_cons_eq, close_cons_eq E X w h i rest, bind_bind]
    congr 1
    funext a
    exact ih a

/-- One round of the closing loop of `adjustScreenSize`, on a server that
answers every query. -/
theorem close_round (E : Env) (X : XServer) (w h : Nat)
    (hinfo : ∀ l k ts, ∃ ci, X.crtcInfo l k ts = some ci ∧ ci.Rotation &&& 0xf ≠ 0)
    (htrans : ∀ l k, ∃ ti, X.crtcTransform l k = some ti)
    (i : Nat) (acc : List Nat) (s : World) (op : Output)
    (hop : s.1.Outputs[i]? = some op) :
    ∃ s1, Display.adjustScreenSize.close E X w h [i] acc s
        = .ret (acc ++ [i].filter (closesAt X s.1 w h s.2)) s1 ∧
      s1.1.Width = s.1.Width ∧ s1.1.Height = s.1.Height ∧
      s1.1.MirrorOutput = s.1.MirrorOutput ∧
      (∀ j, i ≠ j → s1.1.Outputs[j]? = s.1.Outputs[j]?) ∧
      ∃ op1, s1.1.Outputs[i]? = some op1 ∧
        op1.Opened = (op.Opened && !closesAt X s.1 w h s.2 i) := by
  obtain ⟨ci, hci, _⟩ := hinfo s.2 op.crtc 0
  simp only [Display.adjustScreenSize.close, bind_apply, getOutput, hop, display,
    onLog_GetCrtcInfo_apply, hci]
  by_cases hc : op.Opened = true ∧ some i ≠ s.1.MirrorOutput
  · rw [if_pos hc]
    simp only [bind_apply, onLog_GetCrtcInfo_apply, hci, display]
    by_cases hfit : DDE.max op.Allocation.Width ci.Width > DDE.min w s.1.Width
        ∨ DDE.max op.Allocation.Height ci.Height > DDE.min h s.1.Height
    · rw [if_pos hfit]
      obtain ⟨config, log0, hnew⟩ := NewPendingConfig_returns X s.1 op
        (Request.GetCrtcInfo op.crtc 0 :: s.2) hinfo htrans
      have hclose := setOpened_false_eq E X i (s.1, Request.GetCrtcInfo op.crtc 0 :: s.2) op
        config log0 hop hc.1 hnew
      simp only [bind_apply, hclose, pure_apply]
      have hd : closesAt X s.1 w h s.2 i = true := by
        simp only [closesAt, liveAllocation, hop, hci, hc.1, Bool.true_and, Bool.and_eq_true,
          Bool.or_eq_true, decide_eq_true_eq]
        exact ⟨hc.2, hfit⟩
      refine ⟨(s.1.closeOutput i config,
        Request.SetCrtcConfig config.crtc TimeCurrentTime s.1.LastConfigTimeStamp 0 0 0
          config.rotation [] :: log0), ?_, rfl, rfl, rfl,
        fun j hj => closeOutput_getElem_ne s.1 i j config hj,
        ⟨_, closeOutput_getElem_eq s.1 i config op hop, by simp [hd]⟩⟩
      simp only [List.filter_cons, hd, if_true, List.filter_nil]
    · rw [if_neg hfit]
      simp only [bind_apply, pure_apply]
      have hd : closesAt X s.1 w h s.2 i = false := by
        simp only [closesAt, liveAllocation, hop, hci, hc.1, Bool.true_and,
          Bool.and_eq_false_iff, Bool.or_eq_false_iff, decide_eq_false_iff_not]
        exact Or.inr (not_or.mp hfit)
      refine ⟨(s.1, Request.GetCrtcInfo op.crtc 0 :: s.2), ?_, rfl, rfl, rfl, fun j _ => rfl,
        ⟨op, hop, by simp [hd]⟩⟩
      simp only [List.filter_cons, hd, Bool.false_eq_true, if_false, List.filter_nil,
        List.append_nil]
  · rw [if_neg hc]
    simp only [bind_apply, pure_apply]
    have hd : closesAt X s.1 w h s.2 i = false := by
      simp only [closesAt, hop]
      rw [not_and_or] at hc
      rcases hc with hc | hc
      · simp [hc]
      · simp [hc]
    refine ⟨s, ?_, rfl, rfl, rfl, fun j _ => rfl, ⟨op, hop, by simp [hd]⟩⟩
    simp only [List.filter_cons, hd, Bool.false_eq_true, if_false, List.filter_nil,
      List.append_nil]

theorem closesAt_congr (X : XServer) (d d1 : Display) (w h : Nat) (log : List Request) (i : Nat)
    (hW : d1.Width = d.Width) (hH : d1.Height = d.Height)
    (hM : d1.MirrorOutput = d.MirrorOutput) (hO : d1.Outputs[i]? = d.Outputs[i]?) :
    closesAt X d1 w h log i = closesAt X d w h log i := by
  simp only [closesAt, hW, hH, hM, hO]

/-- The closing loop of `adjustScreenSize` over the first `n` outputs, on a
server that answers every query: each output is judged on the history the loop
has reached when it comes to that output, which is the history after the loop
over the outputs before it. -/
theorem close_range (E : Env) (X : XServer) (w h : Nat)
    (hinfo : ∀ l k ts, ∃ ci, X.crtcInfo l k ts = some ci ∧ ci.Rotation &&& 0xf ≠ 0)
    (htrans : ∀ l k, ∃ ti, X.crtcTransform l k = some ti) (s0 : World) :
    ∀ n, n ≤ s0.1.Outputs.length →
      ∃ s2, Display.adjustScreenSize.close E X w h (List.range n) [] s0
          = .ret ((List.range n).filter fun j => closesAt X s0.1 w h
              (Display.adjustScreenSize.close E X w h (List.range j) [] s0).state.2 j) s2 ∧
        s2.1.Width = s0.1.Width ∧ s2.1.Height = s0.1.Height ∧
        s2.1.MirrorOutput = s0.1.MirrorOutput ∧
        (∀ j, n ≤ j → s2.1.Outputs[j]? = s0.1.Outputs[j]?) ∧
        (∀ j, j < n → ∀ op, s0.1.Outputs[j]? = some op → ∃ op2, s2.1.Outputs[j]? = some op2 ∧
          op2.Opened = (op.Opened && !closesAt X s0.1 w h
            (Display.adjustScreenSize.close E X w h (List.range j) [] s0).state.2 j)) := by
  intro n
  induction n with
  | zero =>
    intro _
    exact ⟨s0, rfl, rfl, rfl, rfl, fun _ _ => rfl, fun j hj => absurd hj (Nat.not_lt_zero j)⟩
  | succ n ih =>
    intro hn
    obtain ⟨s2, hs2, hW, hH, hM, hge, hlt⟩ := ih (by omega)
    obtain ⟨op, hop0⟩ : ∃ op, s0.1.Outputs[n]? = some op :=
      ⟨s0.1.Outputs[n], List.getElem?_eq_getElem (by omega)⟩
    have hop : s2.1.Outputs[n]? = some op := by rw [hge n (Nat.le_refl n), hop0]
    obtain ⟨s3, hs3, hW3, hH3, hM3, hne3, op1, hop1, hopen1⟩ :=
      close_round E X w h hinfo htrans n
        ((List.range n).filter fun j => closesAt X s0.1 w h
          (Display.adjustScreenSize.close E X w h (List.range j) [] s0).state.2 j) s2 op hop
    have hfit : closesAt X s2.1 w h s2.2 n = closesAt X s0.1 w h
        (Display.adjustScreenSize.close E X w h (List.range n) [] s0).state.2 n := by
      rw [hs2]
      exact closesAt_congr X s0.1 s2.1 w h s2.2 n hW hH hM (hge n (Nat.le_refl n))
    refine ⟨s3, ?_, hW3.trans hW, hH3.trans hH, hM3.trans hM, fun j hj => ?_,
      fun j hj opj hopj => ?_⟩
    · rw [List.range_succ, close_append]
      simp only [bind_apply, hs2]
      rw [hs3]
      simp only [List.filter_append, List.filter_cons, List.filter_nil, hfit]
    · rw [hne3 j (by omega), hge j (by omega)]
    · rcases Nat.lt_succ_iff_lt_or_eq.mp hj with hjn | rfl
      · rw [hne3 j (by omega)]
        exact hlt j hjn opj hopj
      · rw [hop0] at hopj
        cases hopj
        exact ⟨op1, hop1, by rw [hopen1, hfit]⟩

/-- On an output whose live allocation fits the current screen, the test of
the closing loop is the comparison with the new bound alone. -/
theorem closesAt_of_fits (X : XServer) (d : Display) (w h : Nat) (log : List Request) (i : Nat)
    (op : Output) (cw ch : Nat) (hop : d.Outputs[i]? = some op)
    (hlive : liveAllocation X op log = some (cw, ch)) (hW : cw ≤ d.Width) (hH : ch ≤ d.Height) :
    closesAt X d w h log i
      = (op.Opened && decide (some i ≠ d.MirrorOutput) &&
          (decide (cw > w) || decide (ch > h))) := by
  have ew : decide (cw > DDE.min w d.Width) = decide (cw > w) := by
    apply decide_eq_decide.mpr
    unfold DDE.min
    split <;> omega
  have eh : decide (ch > DDE.min h d.Height) = decide (ch > h) := by
    apply decide_eq_decide.mpr
    unfold DDE.min
    split <;> omega
  simp only [closesAt, hop, hlive, ew, eh]

/-! ## Lemmas on the round trip of setOpened -/

theorem mask_geometry_ne_zero (a : Nat) : (a ||| 1 ||| 8) ≠ 0 := by
  intro h
  have h1 := congrArg (fun n => Nat.testBit n 0) h
  simp at h1

theorem ClonePendingConfig_eq (c : pendingConfig) :
    ClonePendingConfig c = { c with gammaRed := [], gammaGreen := [], gammaBlue := [] } := by
  simp [ClonePendingConfig, copy]

theorem allocation_cases (σ : Type) (E : Env) (DPY : Display) (c : pendingConfig) :
    (∃ r, (allocation E DPY c : M σ Rectangle) = fun s => .ret r s) ∨
    (∃ msg, (allocation E DPY c : M σ Rectangle) = fun s => .panic msg s) := by
  unfold allocation
  cases c.appliedAllocation E DPY with
  | error e => exact Or.inr ⟨e, rfl⟩
  | ok r => exact Or.inl ⟨r, rfl⟩

theorem queryOutputName_cases (σ : Type) (E : Env) (DPY : Display) (id : Nat) :
    (∃ name, (queryOutputName E DPY id : M σ String) = fun s => .ret name s) ∨
    (∃ msg, (queryOutputName E DPY id : M σ String) = fun s => .panic msg s) := by
  unfold queryOutputName
  cases E.queryOutput DPY id with
  | none => exact Or.inr ⟨_, rfl⟩
  | some o => exact Or.inl ⟨o.Name, rfl⟩

/-- What `apply` writes for a config with a mode when the server accepts every
write: the gamma ramps and the transform if the mask names them, then the
geometry. -/
theorem apply_writes (E : Env) (X : XServer) (DPY : Display) (c : pendingConfig)
    (log : List Request) (hacc : ∀ l r, X.accepts l r = true) (hmode : c.mode ≠ 0) :
    (c.apply E X DPY log).state.filter Request.isWrite
      = (if DPY.MirrorMode = true then
          Request.SetCrtcConfig c.crtc TimeCurrentTime DPY.LastConfigTimeStamp
            (toInt16 (toUInt16 (-(c.borderCompensationX : Int))))
            (toInt16 (toUInt16 (-(c.borderCompensationY : Int)))) c.mode c.rotation [c.output]
        else
          Request.SetCrtcConfig c.crtc TimeCurrentTime DPY.LastConfigTimeStamp
            c.posX c.posY c.mode c.rotation [c.output])
        :: (if c.mask &&& 4 = 4 then
              [Request.SetCrtcTransform c.crtc c.transform (toUInt16 c.filterName.utf8ByteSize)
                c.filterName c.filterParams]
            else [])
        ++ (if c.mask &&& 16 = 16 then
              [Request.SetCrtcGamma c.crtc (toUInt16 c.gammaRed.length)
                c.gammaRed c.gammaGreen c.gammaBlue]
            else [])
        ++ log.filter Request.isWrite := by
  simp only [pendingConfig.apply, hmode, if_false, bind_apply, write, history_apply, send_apply,
    pure_apply, hacc, _PendingMaskGramma, _PendingMaskTransform, _PendingMaskPos,
    _PendingMaskMode, _PendingMaskRotation]
  have hne : (c.mask &&& 2 ||| 1 ||| 8) ≠ 0 := mask_geometry_ne_zero _
  by_cases hg : c.mask &&& 16 = 16 <;> by_cases ht : c.mask &&& 4 = 4 <;>
    by_cases hm : DPY.MirrorMode = true <;>
    simp only [hg, ht, hm, hne, ne_eq, not_false_eq_true, not_true_eq_false, if_true, if_false,
      bind_apply, history_apply, send_apply, pure_apply, Bool.not_true, Bool.false_eq_true,
      GetCrtcInfo_apply, raise_apply, hmode]
  all_goals
    rcases queryOutputName_cases (List Request) E DPY c.output with ⟨name, hq⟩ | ⟨msg, hq⟩ <;>
    rcases allocation_cases (List Request) E DPY c with ⟨r, ha⟩ | ⟨msg1, ha⟩ <;>
    simp only [hq, ha, bind_apply, pure_apply] <;>
    try (generalize X.crtcInfo _ c.crtc TimeCurrentTime = ci; cases ci) <;>
    simp only [bind_apply, pure_apply, raise_apply] <;>
    try split
    all_goals simp [Res.state, Request.isWrite]

/-- The method `apply` returns when the server accepts every write and answers
the query for the CRTC, the output is known and the mode has a size. -/
theorem apply_returns (E : Env) (X : XServer) (DPY : Display) (c : pendingConfig)
    (log : List Request) (hacc : ∀ l r, X.accepts l r = true)
    (hq : (E.queryOutput DPY c.output).isSome = true)
    (hW : 0 < (DPY.modes c.mode).Width) (hH : 0 < (DPY.modes c.mode).Height)
    (hinfo : ∀ l, (X.crtcInfo l c.crtc TimeCurrentTime).isSome = true) :
    (c.apply E X DPY log).returned = true := by
  by_cases hmode : c.mode = 0
  · rw [apply_disable E X DPY c log hmode]
    rfl
  have hne : (c.mask &&& 2 ||| 1 ||| 8) ≠ 0 := mask_geometry_ne_zero _
  obtain ⟨o, ho⟩ := Option.isSome_iff_exists.mp hq
  have hname : (queryOutputName E DPY c.output : M (List Request) String)
      = fun s => .ret o.Name s := by
    funext s
    simp only [queryOutputName, ho]
  have ha : (allocation E DPY c : M (List Request) Rectangle)
      = fun s => .ret (c.box E DPY) s := funext fun s => allocation_sized E DPY c s hW hH
  simp only [pendingConfig.apply, hmode, if_false, bind_apply, write, history_apply, send_apply,
    pure_apply, hacc, _PendingMaskGramma, _PendingMaskTransform, _PendingMaskPos,
    _PendingMaskMode, _PendingMaskRotation]
  by_cases hg : c.mask &&& 16 = 16 <;> by_cases ht : c.mask &&& 4 = 4 <;>
    by_cases hm : DPY.MirrorMode = true <;>
    simp only [hg, ht, hm, hne, ne_eq, not_false_eq_true, not_true_eq_false, if_true, if_false,
      bind_apply, history_apply, send_apply, pure_apply, Bool.not_true, Bool.false_eq_true,
      GetCrtcInfo_apply, raise_apply, hmode, hname, ha]
  all_goals
    generalize hci : X.crtcInfo _ c.crtc TimeCurrentTime = ci
    have hsome : ci.isSome = true := hci ▸ hinfo _
    cases ci with
    | none => simp at hsome
    | some cinfo =>
      simp only [bind_apply, pure_apply, ha]
      split <;> rfl

theorem reopenOutput_getElem_eq (d : Display) (i : Nat) (c : pendingConfig) (op : Output)
    (h : d.Outputs[i]? = some op) :
    (d.reopenOutput i c).Outputs[i]?
      = some { op with Opened := true, pendingConfig := some c, savedConfig := none } := by
  simp only [Display.reopenOutput, Display.assign, List.getElem?_modify_eq, h, Option.map_eq_map,
    Option.map_some']

/-- The method `setOpened(true)` on a closed output with a saved config: the
clone of the saved config is committed by `apply`; the output ends open and
without saved config, and without draft when `apply` returned. -/
theorem setOpened_true_saved (E : Env) (X : XServer) (i : Nat) (s : World) (op : Output)
    (saved : pendingConfig)
    (hop : s.1.Outputs[i]? = some op) (hclosed : op.Opened = false)
    (hsaved : op.savedConfig = some saved) :
    (Output.setOpened E X i true s).state.2
      = ((ClonePendingConfig saved).apply E X
          (s.1.reopenOutput i (ClonePendingConfig saved)) s.2).state ∧
    (Output.setOpened E X i true s).returned
      = ((ClonePendingConfig saved).apply E X
          (s.1.reopenOutput i (ClonePendingConfig saved)) s.2).returned ∧
    ∃ op2, (Output.setOpened E X i true s).state.1.Outputs[i]? = some op2 ∧
      op2.Opened = true ∧ op2.savedConfig = none ∧
      ((Output.setOpened E X i true s).returned = true → op2.pendingConfig = none) := by
  have hre := reopenOutput_getElem_eq s.1 i (ClonePendingConfig saved) op hop
  simp only [Output.setOpened, bind_apply, getOutput, hop, hclosed, Bool.false_eq_true, if_false,
    setOutput, display, onLog, hsaved, if_true, pure_apply]
  generalize hr : (ClonePendingConfig saved).apply E X _ s.2 = r
  have hr2 : (ClonePendingConfig saved).apply E X
      (s.1.reopenOutput i (ClonePendingConfig saved)) s.2 = r := hr
  rw [hr2]
  cases r with
  | ret a log =>
    refine ⟨rfl, rfl, { op with Opened := true, pendingConfig := none, savedConfig := none },
      ?_, rfl, rfl, fun _ => rfl⟩
    show (((s.1.reopenOutput i (ClonePendingConfig saved)).assign i
      fun op => { op with pendingConfig := none }).Outputs[i]?) = _
    simp only [Display.assign, List.getElem?_modify_eq, hre, Option.map_eq_map, Option.map_some']
  | panic msg log =>
    exact ⟨rfl, rfl, _, hre, rfl, rfl, fun h => (Bool.false_ne_true h).elim⟩

theorem filter_isGeometry_isWrite (l : List Request) :
    (l.filter Request.isWrite).filter Request.isGeometry = l.filter Request.isGeometry := by
  rw [List.filter_filter]
  congr 1
  funext r
  cases r <;> rfl

/-- Closing an open output and opening it again, on a server that accepts
every write: the writes of the reopening, and the state of the output after it. -/
theorem setOpened_round_trip (E : Env) (X : XServer) (i : Nat) (s : World)
    (op : Output) (config : pendingConfig) (log0 : List Request)
    (hacc : ∀ l r, X.accepts l r = true)
    (hop : s.1.Outputs[i]? = some op) (hopen : op.Opened = true)
    (hnew : NewPendingConfig X s.1 op s.2 = .ret config log0) :
    ∃ s1, Output.setOpened E X i false s = .ret () s1 ∧
      (Output.setOpened E X i true s1).state.2.filter Request.isWrite
        = (if config.mode = 0 then
            [Request.SetCrtcConfig config.crtc TimeCurrentTime s.1.LastConfigTimeStamp 0 0 0
              config.rotation []]
          else
            (if s.1.MirrorMode = true then
              Request.SetCrtcConfig config.crtc TimeCurrentTime s.1.LastConfigTimeStamp
                (toInt16 (toUInt16 (-(config.borderCompensationX : Int))))
                (toInt16 (toUInt16 (-(config.borderCompensationY : Int))))
                config.mode config.rotation [config.output]
            else
              Request.SetCrtcConfig config.crtc TimeCurrentTime s.1.LastConfigTimeStamp
                config.posX config.posY config.mode config.rotation [config.output])
            :: (if config.mask &&& 4 = 4 then
                  [Request.SetCrtcTransform config.crtc config.transform
                    (toUInt16 config.filterName.utf8ByteSize) config.filterName
                    config.filterParams]
                else [])
            ++ (if config.mask &&& 16 = 16 then [Request.SetCrtcGamma config.crtc 0 [] [] []]
                else []))
          ++ Request.SetCrtcConfig config.crtc TimeCurrentTime s.1.LastConfigTimeStamp 0 0 0
              config.rotation [] :: log0.filter Request.isWrite ∧
      ∃ op2, (Output.setOpened E X i true s1).state.1.Outputs[i]? = some op2 ∧
        op2.Opened = true ∧ op2.savedConfig = none ∧
        ((E.queryOutput ((s.1.closeOutput i config).reopenOutput i (ClonePendingConfig config))
            config.output).isSome = true →
          0 < (s.1.modes config.mode).Width → 0 < (s.1.modes config.mode).Height →
          (∀ l, (X.crtcInfo l config.crtc TimeCurrentTime).isSome = true) →
          (Output.setOpened E X i true s1).returned = true ∧ op2.pendingConfig = none) := by
  refine ⟨_, setOpened_false_eq E X i s op config log0 hop hopen hnew, ?_⟩
  have hidem : ClonePendingConfig (ClonePendingConfig config) = ClonePendingConfig config := by
    simp only [ClonePendingConfig_eq]
  have hclosed := closeOutput_getElem_eq s.1 i config op hop
  obtain ⟨hlog, hret, op2, hop2, hO, hS, hP⟩ := setOpened_true_saved E X i
    (s.1.closeOutput i config,
      Request.SetCrtcConfig config.crtc TimeCurrentTime s.1.LastConfigTimeStamp 0 0 0
        config.rotation [] :: log0) _ (ClonePendingConfig config) hclosed rfl rfl
  rw [hidem] at hlog hret
  refine ⟨?_, op2, hop2, hO, hS, fun hq hW hH hinfo => ?_⟩
  · rw [hlog]
    by_cases hmode : config.mode = 0
    · rw [apply_disable E X _ _ _ (show (ClonePendingConfig config).mode = 0 from hmode)]
      simp [hmode, Res.state, Request.isWrite, ClonePendingConfig_eq]
      rfl
    · rw [apply_writes E X _ _ _ hacc (show (ClonePendingConfig config).mode ≠ 0 from hmode)]
      simp [hmode, Request.isWrite, ClonePendingConfig_eq, toUInt16]
      rfl
  · have hr : (Output.setOpened E X i true (s.1.closeOutput i config,
        Request.SetCrtcConfig config.crtc TimeCurrentTime s.1.LastConfigTimeStamp 0 0 0
          config.rotation [] :: log0)).returned = true := by
      rw [hret]
      exact apply_returns E X _ _ _ hacc hq hW hH hinfo
    exact ⟨hr, hP hr⟩

/-! ## Lemmas on the applied allocation, continued -/

/-- The size of the rectangle `appliedAllocation` computes, when `calcBound`
gives a box of W x H. -/
theorem box_size (E : Env) (DPY : Display) (c : pendingConfig) (W H bx bY : Nat)
    (x1 y1 x2 y2 : Int) (hmode : DPY.modes c.mode = ⟨W, H⟩)
    (hbound : E.calcBound c.transform c.rotation W H = (x1, y1, x2, y2))
    (hx : x2 - x1 = W) (hy : y2 - y1 = H) (hW : W < 65536) (hH : H < 65536)
    (hbx : c.borderCompensationX = bx) (hby : c.borderCompensationY = bY)
    (h2x : 2 * bx ≤ W) (h2y : 2 * bY ≤ H) :
    (c.box E DPY).Width = W - 2 * bx ∧ (c.box E DPY).Height = H - 2 * bY := by
  simp only [pendingConfig.box, hmode, hbound, hx, hy, hbx, hby, toUInt16]
  omega

/-! ## Lemmas on the bound of the pending allocations -/

/-- The bound the first loop of `adjustScreenSize` keeps, over allocations
already at hand. -/
theorem bound_fold (rs : List Rectangle) :
    ∀ (w0 h0 w h : Nat),
      rs.foldl (fun acc b => (DDE.max b.Width acc.1, DDE.max b.Height acc.2)) (w0, h0) = (w, h) →
      (w0 ≤ w ∧ (∀ r ∈ rs, r.Width ≤ w) ∧ (w = w0 ∨ ∃ r ∈ rs, r.Width = w)) ∧
      (h0 ≤ h ∧ (∀ r ∈ rs, r.Height ≤ h) ∧ (h = h0 ∨ ∃ r ∈ rs, r.Height = h)) := by
  induction rs with
  | nil =>
    intro w0 h0 w h hf
    simp only [List.foldl_nil, Prod.mk.injEq] at hf
    obtain ⟨rfl, rfl⟩ := hf
    simp
  | cons r rest ih =>
    intro w0 h0 w h hf
    simp only [List.foldl_cons] at hf
    obtain ⟨⟨hw1, hw2, hw3⟩, hh1, hh2, hh3⟩ := ih _ _ w h hf
    have mw : w0 ≤ DDE.max r.Width w0 ∧ r.Width ≤ DDE.max r.Width w0 ∧
        (DDE.max r.Width w0 = w0 ∨ DDE.max r.Width w0 = r.Width) := by
      unfold DDE.max
      split <;> omega
    have mh : h0 ≤ DDE.max r.Height h0 ∧ r.Height ≤ DDE.max r.Height h0 ∧
        (DDE.max r.Height h0 = h0 ∨ DDE.max r.Height h0 = r.Height) := by
      unfold DDE.max
      split <;> omega
    refine ⟨⟨by omega, ?_, ?_⟩, by omega, ?_, ?_⟩
    · intro x hx
      rcases List.mem_cons.mp hx with rfl | hx
      · omega
      · exact hw2 x hx
    · rcases hw3 with hw3 | ⟨x, hx, hxw⟩
      · rcases mw.2.2 with e | e
        · exact Or.inl (by omega)
        · exact Or.inr ⟨r, List.mem_cons_self r rest, by omega⟩
      · exact Or.inr ⟨x, List.mem_cons_of_mem r hx, hxw⟩
    · intro x hx
      rcases List.mem_cons.mp hx with rfl | hx
      · omega
      · exact hh2 x hx
    · rcases hh3 with hh3 | ⟨x, hx, hxh⟩
      · rcases mh.2.2 with e | e
        · exact Or.inl (by omega)
        · exact Or.inr ⟨r, List.mem_cons_self r rest, by omega⟩
      · exact Or.inr ⟨x, List.mem_cons_of_mem r hx, hxh⟩

/-- The first loop of `adjustScreenSize` returns the bound of the pending
allocations of the outputs, when these are all obtained. -/
theorem bound_allocations (E : Env) (X : XServer) (is : List Nat) :
    ∀ (wh : Nat × Nat) (s s1 : World) (rs : List Rectangle),
      Display.adjustScreenSize.allocations E X is s = .ret rs s1 →
      Display.adjustScreenSize.bound E X is wh s
        = .ret (rs.foldl (fun acc b => (DDE.max b.Width acc.1, DDE.max b.Height acc.2)) wh) s1 ∧
      rs.length = is.length := by
  induction is with
  | nil =>
    intro wh s s1 rs h
    simp only [Display.adjustScreenSize.allocations, pure_apply, Res.ret.injEq] at h
    obtain ⟨rfl, rfl⟩ := h
    exact ⟨rfl, rfl⟩
  | cons i rest ih =>
    intro wh s s1 rs h
    obtain ⟨w, h0⟩ := wh
    simp only [Display.adjustScreenSize.allocations, bind_apply] at h
    simp only [Display.adjustScreenSize.bound, bind_apply]
    generalize Output.pendingAllocation E X i s = r at h ⊢
    cases r with
    | panic msg s2 => cases h
    | ret b s2 =>
      simp only [] at h ⊢
      generalize hrest : Display.adjustScreenSize.allocations E X rest s2 = r2 at h
      cases r2 with
      | panic msg s3 => cases h
      | ret bs s3 =>
        simp only [pure_apply, Res.ret.injEq] at h
        obtain ⟨rfl, rfl⟩ := h
        obtain ⟨hb, hlen⟩ := ih (DDE.max b.Width w, DDE.max b.Height h0) s2 s3 bs hrest
        exact ⟨by rw [hb]; rfl, by simp [hlen]⟩

/-- What `adjustScreenSize` sets the screen size to, given the bounds (w, h)
its first loop has returned. -/
theorem adjustScreenSize_sets_size (E : Env) (X : XServer) (s s1 : World) (w h : Nat)
    (hb : Display.adjustScreenSize.bound E X (List.range s.1.Outputs.length) (0, 0)
      (s.1, Request.stopListen :: s.2) = .ret (w, h) s1) :
    (Int.natAbs ((w : Int) - s.1.Width) ≥ 4 ∨ Int.natAbs ((h : Int) - s.1.Height) ≥ 4 →
      ∀ tmp s2, Display.adjustScreenSize.close E X w h (List.range s.1.Outputs.length) [] s1
          = .ret tmp s2 →
        ∃ d, Display.adjustScreenSize E X s
            = .ret tmp (d, Request.startListen :: Request.SetScreenSize w h :: s2.2) ∧
          d.Width = w ∧ d.Height = h) ∧
    (¬ (Int.natAbs ((w : Int) - s.1.Width) ≥ 4 ∨ Int.natAbs ((h : Int) - s.1.Height) ≥ 4) →
      ∃ d, Display.adjustScreenSize E X s
          = .ret [] (d, Request.startListen ::
              Request.SetScreenSize ((w + Int.natAbs ((w : Int) - s.1.Width)) % 65536)
                ((h + Int.natAbs ((h : Int) - s.1.Height)) % 65536) :: s1.2) ∧
        d.Width = (w + Int.natAbs ((w : Int) - s.1.Width)) % 65536 ∧
        d.Height = (h + Int.natAbs ((h : Int) - s.1.Height)) % 65536 ∧
        (w + Int.natAbs ((w : Int) - s.1.Width) < 65536 →
          d.Width = w + Int.natAbs ((w : Int) - s.1.Width)) ∧
        (h + Int.natAbs ((h : Int) - s.1.Height) < 65536 →
          d.Height = h + Int.natAbs ((h : Int) - s.1.Height))) := by
  have hfr := bound_screen E X (List.range s.1.Outputs.length) (0, 0)
    (s.1, Request.stopListen :: s.2)
  rw [hb] at hfr
  simp only [Res.state] at hfr
  obtain ⟨hW, hH, _⟩ := hfr
  constructor
  · intro hcond tmp s2 hc
    rw [← hW, ← hH] at hcond
    exact ⟨_, adjustScreenSize_resize E X s s1 s2 w h tmp hb hcond hc, rfl, rfl⟩
  · intro hcond
    rw [← hW, ← hH] at hcond ⊢
    have hw4 : toUInt16 ((w : Int) + toUInt16 (Int.natAbs ((w : Int) - s1.1.Width)))
        = (w + Int.natAbs ((w : Int) - s1.1.Width)) % 65536 := by
      simp only [toUInt16]
      omega
    have hh4 : toUInt16 ((h : Int) + toUInt16 (Int.natAbs ((h : Int) - s1.1.Height)))
        = (h + Int.natAbs ((h : Int) - s1.1.Height)) % 65536 := by
      simp only [toUInt16]
      omega
    refine ⟨{ s1.1 with
        Width := (w + Int.natAbs ((w : Int) - s1.1.Width)) % 65536
        Height := (h + Int.natAbs ((h : Int) - s1.1.Height)) % 65536 }, ?_, rfl, rfl,
      fun hlt => Nat.mod_eq_of_lt hlt, fun hlt => Nat.mod_eq_of_lt hlt⟩
    rw [adjustScreenSize_snap E X s s1 w h hb hcond, hw4, hh4]

/-! ## Claims on the reconciler -/

/-- C11 as stated fails: the pending bound is (65535, 1080) and the screen is
65533 x 1080, so both differences are below 4 and the claim gives a screen
of (65537, 1080); the sum is taken in `uint16` and the width is set to 1. -/
theorem C11_adjustScreenSize_snap_counterexample :
    (Display.adjustScreenSize.bound sampleEnv sampleServer [0] (0, 0)
      (wrapDisplay, [Request.stopListen])).returned = true ∧
    (Display.adjustScreenSize sampleEnv sampleServer (wrapDisplay, [])).state.2
      = [Request.startListen, Request.SetScreenSize 1 1080, Request.stopListen] ∧
    (Display.adjustScreenSize sampleEnv sampleServer (wrapDisplay, [])).state.1.Width = 1 ∧
    (Display.adjustScreenSize sampleEnv sampleServer (wrapDisplay, [])).state.1.Height = 1080 := by
  decide

/-- C11 amended: let `rs` be the pending allocations of all outputs, as the
first loop of `adjustScreenSize` obtains them, (w, h) the maximum width and the
maximum height over `rs` (0 without outputs), and (W, H) the current screen
size. If |w - W| >= 4 or |h - H| >= 4 and the closing loop returns, the
function sets the screen size to exactly (w, h); otherwise it sets it to
((w + |w - W|) mod 65536, (h + |h - H|) mod 65536), which is
(w + |w - W|, h + |h - H|) when these sums are below 65536. -/
theorem C11_adjustScreenSize_sets_size (E : Env) (X : XServer) (s s1 : World)
    (rs : List Rectangle) (w h : Nat)
    (hallocs : Display.adjustScreenSize.allocations E X (List.range s.1.Outputs.length)
      (s.1, Request.stopListen :: s.2) = .ret rs s1)
    (hwmax : ∀ r ∈ rs, r.Width ≤ w) (hwin : w = 0 ∨ ∃ r ∈ rs, r.Width = w)
    (hhmax : ∀ r ∈ rs, r.Height ≤ h) (hhin : h = 0 ∨ ∃ r ∈ rs, r.Height = h) :
    rs.length = s.1.Outputs.length ∧
    (Int.natAbs ((w : Int) - s.1.Width) ≥ 4 ∨ Int.natAbs ((h : Int) - s.1.Height) ≥ 4 →
      ∀ tmp s2, Display.adjustScreenSize.close E X w h (List.range s.1.Outputs.length) [] s1
          = .ret tmp s2 →
        ∃ d, Display.adjustScreenSize E X s
            = .ret tmp (d, Request.startListen :: Request.SetScreenSize w h :: s2.2) ∧
          d.Width = w ∧ d.Height = h) ∧
    (¬ (Int.natAbs ((w : Int) - s.1.Width) ≥ 4 ∨ Int.natAbs ((h : Int) - s.1.Height) ≥ 4) →
      ∃ d, Display.adjustScreenSize E X s
          = .ret [] (d, Request.startListen ::
              Request.SetScreenSize ((w + Int.natAbs ((w : Int) - s.1.Width)) % 65536)
                ((h + Int.natAbs ((h : Int) - s.1.Height)) % 65536) :: s1.2) ∧
        d.Width = (w + Int.natAbs ((w : Int) - s.1.Width)) % 65536 ∧
        d.Height = (h + Int.natAbs ((h : Int) - s.1.Height)) % 65536 ∧
        (w + Int.natAbs ((w : Int) - s.1.Width) < 65536 →
          d.Width = w + Int.natAbs ((w : Int) - s.1.Width)) ∧
        (h + Int.natAbs ((h : Int) - s.1.Height) < 65536 →
          d.Height = h + Int.natAbs ((h : Int) - s.1.Height))) := by
  obtain ⟨hb, hlen⟩ := bound_allocations E X (List.range s.1.Outputs.length) (0, 0)
    (s.1, Request.stopListen :: s.2) s1 rs hallocs
  generalize hf : rs.foldl (fun acc b => (DDE.max b.Width acc.1, DDE.max b.Height acc.2))
    (0, 0) = wh at hb
  obtain ⟨w1, h1⟩ := wh
  obtain ⟨⟨_, hw2, hw3⟩, _, hh2, hh3⟩ := bound_fold rs 0 0 w1 h1 hf
  have ew : w1 = w := by
    apply Nat.le_antisymm
    · rcases hw3 with e | ⟨r, hr, e⟩
      · omega
      · have := hwmax r hr
        omega
    · rcases hwin with e | ⟨r, hr, e⟩
      · omega
      · have := hw2 r hr
        omega
  have eh : h1 = h := by
    apply Nat.le_antisymm
    · rcases hh3 with e | ⟨r, hr, e⟩
      · omega
      · have := hhmax r hr
        omega
    · rcases hhin with e | ⟨r, hr, e⟩
      · omega
      · have := hh2 r hr
        omega
  subst ew eh
  exact ⟨by simpa using hlen, adjustScreenSize_sets_size E X s s1 w1 h1 hb⟩

/-- Witness of C11 amended: two outputs with pending allocations 2560 x 1080
and 1920 x 1440 give the bound 2560 x 1440 against a screen of 2560 x 1436;
the height differs by 4 and the screen is resized to 2560 x 1440. -/
theorem C11_adjustScreenSize_sets_size_witness :
    ∃ d, Display.adjustScreenSize sampleEnv sampleServer (mixedDisplay, [])
        = .ret [] (d, [Request.startListen, Request.SetScreenSize 2560 1440,
            Request.GetCrtcInfo 2 0, Request.GetCrtcInfo 1 0, Request.stopListen]) ∧
      d.Width = 2560 ∧ d.Height = 1440 :=
  (C11_adjustScreenSize_sets_size sampleEnv sampleServer (mixedDisplay, [])
    (mixedDisplay, [Request.stopListen]) [⟨0, 0, 2560, 1080⟩, ⟨0, 0, 1920, 1440⟩] 2560 1440 rfl
    (by decide) (by decide) (by decide) (by decide)).2.1 (Or.inr (by decide)) []
    (mixedDisplay, [Request.GetCrtcInfo 2 0, Request.GetCrtcInfo 1 0, Request.stopListen]) rfl

/-- C12 as stated fails: in mirror mode the sample output holds a config on
mode 2 at position (0, 0), cropped by (112, 84). Every write is accepted and
both calls return; the reopening commits the CRTC at position (-112, -84), not
at the position (0, 0) of the config at closing. -/
theorem C12_reopen_in_mirror_mode_counterexample :
    (NewPendingConfig sampleServer croppedDisplay croppedOutput []).value.map
        (fun c => (c.mode, c.posX, c.posY, c.rotation)) = some (2, 0, 0, 1) ∧
    (Output.setOpened sampleEnv sampleServer 0 false (croppedDisplay, [])).returned = true ∧
    (Output.setOpened sampleEnv sampleServer 0 true
      (Output.setOpened sampleEnv sampleServer 0 false (croppedDisplay, [])).state).returned
        = true ∧
    (Output.setOpened sampleEnv sampleServer 0 true
      (Output.setOpened sampleEnv sampleServer 0 false (croppedDisplay, [])).state).state.2.filter
        Request.isWrite
      = [Request.SetCrtcConfig 1 0 0 (-112) (-84) 2 1 [7],
         Request.SetCrtcConfig 1 0 0 0 0 0 1 []] := by
  decide

/-- C12 amended: let `config` be the configuration of an open output at the
moment of closing, on a server that accepts every write. `setOpened(false)`
returns. Of the requests that write the geometry or the transform of a CRTC,
`setOpened(true)` then sends, for a config without mode, one disabling
`SetCrtcConfig` with the rotation of `config`; for a config with a mode, the
transform and filter of `config` if its mask names them, then one
`SetCrtcConfig` with the mode and rotation of `config`, at the position of
`config` outside mirror mode and at its negated border compensation in mirror
mode. Whether the reopening returns or panics the output ends open and without
saved config; it returns, and the draft is discarded, when the output is
known, the mode has a size and the server answers the query for the CRTC. -/
theorem C12_reopen_commits_saved_config (E : Env) (X : XServer) (i : Nat) (s : World)
    (op : Output) (config : pendingConfig) (log0 : List Request)
    (hacc : ∀ l r, X.accepts l r = true)
    (hop : s.1.Outputs[i]? = some op) (hopen : op.Opened = true)
    (hnew : NewPendingConfig X s.1 op s.2 = .ret config log0) :
    ∃ s1, Output.setOpened E X i false s = .ret () s1 ∧
      (Output.setOpened E X i true s1).state.2.filter Request.isGeometry
        = (if config.mode = 0 then
            [Request.SetCrtcConfig config.crtc TimeCurrentTime s.1.LastConfigTimeStamp 0 0 0
              config.rotation []]
          else
            (if s.1.MirrorMode = true then
              Request.SetCrtcConfig config.crtc TimeCurrentTime s.1.LastConfigTimeStamp
                (toInt16 (toUInt16 (-(config.borderCompensationX : Int))))
                (toInt16 (toUInt16 (-(config.borderCompensationY : Int))))
                config.mode config.rotation [config.output]
            else
              Request.SetCrtcConfig config.crtc TimeCurrentTime s.1.LastConfigTimeStamp
                config.posX config.posY config.mode config.rotation [config.output])
            :: (if config.mask &&& 4 = 4 then
                  [Request.SetCrtcTransform config.crtc config.transform
                    (toUInt16 config.filterName.utf8ByteSize) config.filterName
                    config.filterParams]
                else []))
          ++ Request.SetCrtcConfig config.crtc TimeCurrentTime s.1.LastConfigTimeStamp 0 0 0
              config.rotation [] :: log0.filter Request.isGeometry ∧
      ∃ op2, (Output.setOpened E X i true s1).state.1.Outputs[i]? = some op2 ∧
        op2.Opened = true ∧ op2.savedConfig = none ∧
        ((E.queryOutput ((s.1.closeOutput i config).reopenOutput i (ClonePendingConfig config))
            config.output).isSome = true →
          0 < (s.1.modes config.mode).Width → 0 < (s.1.modes config.mode).Height →
          (∀ l, (X.crtcInfo l config.crtc TimeCurrentTime).isSome = true) →
          (Output.setOpened E X i true s1).returned = true ∧ op2.pendingConfig = none) := by
  obtain ⟨s1, hclose, hwrites, hrest⟩ :=
    setOpened_round_trip E X i s op config log0 hacc hop hopen hnew
  refine ⟨s1, hclose, ?_, hrest⟩
  have h := congrArg (List.filter Request.isGeometry) hwrites
  rw [filter_isGeometry_isWrite] at h
  rw [h]
  have e1 : ∀ a b c x y m r o, Request.isGeometry (.SetCrtcConfig a b c x y m r o) = true :=
    fun _ _ _ _ _ _ _ _ => rfl
  have e2 : ∀ a t n f p, Request.isGeometry (.SetCrtcTransform a t n f p) = true :=
    fun _ _ _ _ _ => rfl
  have e3 : ∀ a n r g b, Request.isGeometry (.SetCrtcGamma a n r g b) = false :=
    fun _ _ _ _ _ => rfl
  have e4 : ∀ l : List Request,
      l.filter (fun a => a.isGeometry && a.isWrite) = l.filter Request.isGeometry := by
    intro l
    rw [← List.filter_filter]
    exact filter_isGeometry_isWrite l
  split_ifs <;> simp [e1, e2, e3, e4]

/-- Witness of C12 amended: the first output of the display with two drafts,
whose draft has a dirty transform; the reopening writes the transform and the
geometry of the mode, and returns. -/
theorem C12_reopen_commits_saved_config_witness :
    ∃ s1, Output.setOpened sampleEnv sampleServer 0 false (twoDisplay, []) = .ret () s1 ∧
      (Output.setOpened sampleEnv sampleServer 0 true s1).state.2.filter Request.isGeometry
        = [Request.SetCrtcConfig 1 0 0 0 0 1 1 [7],
           Request.SetCrtcTransform 1 identityTransform 7 "nearest" [],
           Request.SetCrtcConfig 1 0 0 0 0 0 1 []] ∧
      ∃ op2, (Output.setOpened sampleEnv sampleServer 0 true s1).state.1.Outputs[0]? = some op2 ∧
        op2.Opened = true ∧ op2.savedConfig = none ∧
        (Output.setOpened sampleEnv sampleServer 0 true s1).returned = true ∧
        op2.pendingConfig = none := by
  obtain ⟨s1, h1, h2, op2, h3, h4, h5, h6⟩ :=
    C12_reopen_commits_saved_config sampleEnv sampleServer 0 (twoDisplay, [])
      { sampleOutput with pendingConfig := some { sampleConfig with mask := 4 } }
      { sampleConfig with mask := 4 } [] (fun _ _ => rfl) rfl rfl rfl
  exact ⟨s1, h1, h2, op2, h3, h4, h5, h6 (by decide) (by decide) (by decide) (fun _ => rfl)⟩

/-- C13 as stated fails: a display of 2560 x 1440 whose output shows the
2560 x 1440 mode goes through one pass of `ApplyChanged` with a draft on the
1920 x 1080 mode; the screen is then 1920 x 1080 and the output is open, with
its recorded allocation still 2560 x 1440. With a new draft on the 2560 x 1440
mode the bounds are 2560 x 1440 and the live allocation of the output,
2560 x 1440, fits inside them, yet `adjustScreenSize` closes and returns the
output, since 2560 exceeds min(2560, 1920). -/
theorem C13_resize_closes_fitting_output_counterexample :
    ((Display.ApplyChanged sampleEnv trackingServer (wideDisplay, [])).1.Width = 1920 ∧
      (Display.ApplyChanged sampleEnv trackingServer (wideDisplay, [])).1.Height = 1080 ∧
      (Display.ApplyChanged sampleEnv trackingServer (wideDisplay, [])).1.Outputs
        = [wideOutput]) ∧
    (Display.adjustScreenSize.bound sampleEnv trackingServer [0] (0, 0)
      (secondPass.1, Request.stopListen :: secondPass.2)).value = some (2560, 1440) ∧
    liveAllocation trackingServer wideOutput (Request.stopListen :: secondPass.2)
      = some (2560, 1440) ∧
    (Display.adjustScreenSize sampleEnv trackingServer secondPass).value = some [0] ∧
    (Display.adjustScreenSize sampleEnv trackingServer secondPass).state.1.Outputs.map
      Output.Opened = [false] := by
  decide

/-- C13 amended: when `adjustScreenSize` takes the resize branch with new
bounds (w, h) while the screen size is (W, H), and the server answers every
query, the outputs it returns are exactly, in order, the open outputs other
than the mirror source whose live allocation exceeds the smaller of the new
bounds and the current screen size (live width > min(w, W) or live height >
min(h, H)). The live allocation of an output is taken when the loop reaches
it, on the history after the loop over the outputs before it. These outputs
are closed and every other output keeps its open flag. On an output whose
live allocation fits the current screen the test is live width > w or live
height > h. -/
theorem C13_resize_closes_outputs_that_do_not_fit (E : Env) (X : XServer)
    (s s1 : World) (w h : Nat)
    (hinfo : ∀ l k ts, ∃ ci, X.crtcInfo l k ts = some ci ∧ ci.Rotation &&& 0xf ≠ 0)
    (htrans : ∀ l k, ∃ ti, X.crtcTransform l k = some ti)
    (hb : Display.adjustScreenSize.bound E X (List.range s.1.Outputs.length) (0, 0)
      (s.1, Request.stopListen :: s.2) = .ret (w, h) s1)
    (hcond : Int.natAbs ((w : Int) - s1.1.Width) ≥ 4
      ∨ Int.natAbs ((h : Int) - s1.1.Height) ≥ 4) :
    ∃ s2, Display.adjustScreenSize E X s
        = .ret ((List.range s1.1.Outputs.length).filter fun j => closesAt X s1.1 w h
            (Display.adjustScreenSize.close E X w h (List.range j) [] s1).state.2 j) s2 ∧
      (∀ j op, s1.1.Outputs[j]? = some op → ∃ op2, s2.1.Outputs[j]? = some op2 ∧
        op2.Opened = (op.Opened && !closesAt X s1.1 w h
          (Display.adjustScreenSize.close E X w h (List.range j) [] s1).state.2 j)) ∧
      (∀ j op cw ch, s1.1.Outputs[j]? = some op →
        liveAllocation X op (Display.adjustScreenSize.close E X w h (List.range j) [] s1).state.2
          = some (cw, ch) →
        cw ≤ s1.1.Width → ch ≤ s1.1.Height →
        closesAt X s1.1 w h
            (Display.adjustScreenSize.close E X w h (List.range j) [] s1).state.2 j
          = (op.Opened && decide (some j ≠ s1.1.MirrorOutput) &&
              (decide (cw > w) || decide (ch > h)))) := by
  have hfr := bound_screen E X (List.range s.1.Outputs.length) (0, 0)
    (s.1, Request.stopListen :: s.2)
  rw [hb] at hfr
  simp only [Res.state] at hfr
  obtain ⟨_, _, hlen⟩ := hfr
  obtain ⟨s2, hc, _, _, _, _, hin⟩ := close_range E X w h hinfo htrans s1
    s1.1.Outputs.length (Nat.le_refl _)
  have hlen1 : s1.1.Outputs.length = s.1.Outputs.length := hlen
  refine ⟨({ s2.1 with Width := w, Height := h },
      Request.startListen :: Request.SetScreenSize w h :: s2.2), ?_, fun j op hj => ?_,
    fun j op cw ch hj hl hW hH =>
    closesAt_of_fits X s1.1 w h _ j op cw ch hj hl hW hH⟩
  · have hc1 := hc
    rw [hlen1] at hc1
    rw [hlen1]
    exact adjustScreenSize_resize E X s s1 s2 w h _ hb hcond hc1
  · have hjlt : j < s1.1.Outputs.length := by
      by_contra hge
      rw [List.getElem?_eq_none (by omega)] at hj
      cases hj
    exact hin j hjlt op hj

/-- Witness of C13 amended: two outputs share CRTC 1 on a server that follows
the writes, and the new bounds are 1920 x 1080 on a screen of 2560 x 1440. The
first output, live at 2560 x 1440, is closed; the CRTC is then disabled, so
the second output is live at its recorded 1024 x 768 when the loop reaches it
and stays open. -/
theorem C13_resize_closes_outputs_that_do_not_fit_witness :
    ∃ s2, Display.adjustScreenSize sampleEnv trackingServer (sharedDisplay, []) = .ret [0] s2 := by
  obtain ⟨s2, h, _⟩ := C13_resize_closes_outputs_that_do_not_fit sampleEnv trackingServer
    (sharedDisplay, []) (sharedDisplay, [Request.stopListen]) 1920 1080
    (fun l k _ => by
      simp only [trackingServer]
      cases lastMode k l <;> exact ⟨_, rfl, show (1 &&& 0xf : Nat) ≠ 0 by decide⟩)
    (fun _ _ => ⟨_, rfl⟩) rfl (Or.inl (by decide))
  exact ⟨s2, h⟩

/-- C14 (the code departs from the claim): in mirror mode, with the CRTC
reported at offset (0, -5), `NewPendingConfigWithoutCache` returns position
(0, 0) and border compensation (0, 0); the claim gives compensation (0, 5).
The second test of line 147 reads `cinfo.X`, so the y compensation is only
set when the x offset is negative. -/
theorem C14_mirror_compensation_follows_x_sign :
    NewPendingConfigWithoutCache shiftedServer mirrorDisplay sampleOutput []
      = .ret { crtc := 1, output := 7, mode := 1, rotation := 1, transform := identityTransform,
               filterName := "nearest", posX := 0, posY := 0,
               borderCompensationX := 0, borderCompensationY := 0 }
          [Request.GetCrtcTransform 1, Request.GetCrtcInfo 1 0] := by
  decide

/-- C15 (the code departs from the claim): two outputs hold a draft whose
transform is dirty and the server rejects the transform written to the CRTC of
the first. `ApplyChanged` panics at that error: no request reaches the CRTC of
the second output, whose `apply` is never invoked, and both drafts are still
there when the pass ends. With a server that accepts every write the same pass
commits both outputs and clears both drafts. -/
theorem C15_ApplyChanged_stops_at_rejected_write :
    (Display.ApplyChanged sampleEnv rejectingServer (twoDisplay, [])).2
      = [Request.UngrabServer, Request.startListen,
         Request.SetCrtcTransform 1 identityTransform 7 "nearest" [],
         Request.startListen, Request.SetScreenSize 1920 1080, Request.stopListen,
         Request.stopListen, Request.GrabServer] ∧
    (Display.ApplyChanged sampleEnv rejectingServer (twoDisplay, [])).1.Outputs.map
      (fun op => op.pendingConfig.isSome) = [true, true] ∧
    (Display.ApplyChanged sampleEnv sampleServer (twoDisplay, [])).2.filter Request.isWrite
      = [Request.SetOutputPrimary 0 7,
         Request.SetCrtcConfig 2 0 0 0 0 1 1 [8],
         Request.SetCrtcTransform 2 identityTransform 7 "nearest" [],
         Request.SetCrtcConfig 1 0 0 0 0 1 1 [7],
         Request.SetCrtcTransform 1 identityTransform 7 "nearest" [],
         Request.SetScreenSize 1920 1080] ∧
    (Display.ApplyChanged sampleEnv sampleServer (twoDisplay, [])).1.Outputs.map
      (fun op => op.pendingConfig.isSome) = [false, false] := by
  decide

/-- C16 as stated fails: mode 2 is 1024 x 768; for the target 801 x 600 the
crop is floor(223 / 2) = 111 on each side and the allocation is 802 wide.
Mode 3 is 40000 x 1000; for the target 1000 x 1000 the width offset wraps,
the upscale branch runs and the allocation is 999 x 998. -/
theorem C16_EnsureSize_allocation_counterexample :
    (sampleEnv.calcBound identityTransform 1 1024 768 = (0, 0, 1024, 768) ∧
      ((pendingConfig.EnsureSize sampleEnv sampleServer sampleDisplay 801 600 EnsureSizeHintAuto
        (smallConfig, [])).state.1.appliedAllocation sampleEnv sampleDisplay).toOption
        = some ⟨-111, -84, 802, 600⟩) ∧
    (sampleEnv.calcBound identityTransform 1 40000 1000 = (0, 0, 40000, 1000) ∧
      ((pendingConfig.EnsureSize sampleEnv sampleServer sampleDisplay 1000 1000 EnsureSizeHintAuto
        ({ sampleConfig with mode := 3 }, [])).state.1.appliedAllocation sampleEnv
          sampleDisplay).toOption
        = some ⟨0, 487, 999, 998⟩) := by
  decide

/-- C16 amended: when the native size W x H (below 65536) is at least the
target (w, h), with w, h > 0, exceeds it by less than 32768 in each dimension,
and `calcBound` gives the unscaled mode a box of W x H, `EnsureSize(w, h, hint)`
leaves a config whose applied allocation is W - 2 floor((W - w)/2) wide and
H - 2 floor((H - h)/2) high: exactly w when W - w is even (w + 1 when odd),
exactly h when H - h is even. It returns when the server answers the CRTC
query made if the allocation misses the target. -/
theorem C16_EnsureSize_allocation (E : Env) (X : XServer) (DPY : Display) (c : pendingConfig)
    (W H w h hint : Nat) (log : List Request) (x1 y1 x2 y2 : Int)
    (hmode : DPY.modes c.mode = ⟨W, H⟩) (hw0 : 0 < w) (hh0 : 0 < h)
    (hw : w ≤ W) (hh : h ≤ H) (hW : W < 65536) (hH : H < 65536)
    (hdW : W - w < 32768) (hdH : H - h < 32768)
    (hbound : E.calcBound (scaled E c.transform E.one E.one) c.rotation W H = (x1, y1, x2, y2))
    (hx : x2 - x1 = W) (hy : y2 - y1 = H) :
    (∃ rect,
      (pendingConfig.EnsureSize E X DPY w h hint (c, log)).state.1.appliedAllocation E DPY
        = .ok rect ∧
      rect.Width = W - 2 * ((W - w) / 2) ∧ rect.Height = H - 2 * ((H - h) / 2) ∧
      ((W - w) % 2 = 0 → rect.Width = w) ∧ ((H - h) % 2 = 0 → rect.Height = h)) ∧
    ((X.crtcInfo log c.crtc 0).isSome →
      (pendingConfig.EnsureSize E X DPY w h hint (c, log)).returned = true) := by
  have h0W : 0 < (DPY.modes (c, log).1.mode).Width := by
    rw [hmode]; exact Nat.lt_of_lt_of_le hw0 hw
  have h0H : 0 < (DPY.modes (c, log).1.mode).Height := by
    rw [hmode]; exact Nat.lt_of_lt_of_le hh0 hh
  -- the config the call ends with, its mode and its box
  suffices hkey : ∃ c1, (pendingConfig.EnsureSize E X DPY w h hint (c, log)).state.1 = c1 ∧
      c1.mode = c.mode ∧ c1.transform = scaled E c.transform E.one E.one ∧
      c1.rotation = c.rotation ∧ c1.borderCompensationX = (W - w) / 2 ∧
      c1.borderCompensationY = (H - h) / 2 ∧
      ((X.crtcInfo log c.crtc 0).isSome →
        (pendingConfig.EnsureSize E X DPY w h hint (c, log)).returned = true) by
    obtain ⟨c1, hst, hm, ht, hr, hbx, hby, hret⟩ := hkey
    refine ⟨⟨c1.box E DPY, ?_, ?_⟩, hret⟩
    · rw [hst, appliedAllocation_eq, if_neg]
      rw [hm, hmode]
      show ¬ (W = 0 ∨ H = 0)
      omega
    · have hsz := box_size E DPY c1 W H ((W - w) / 2) ((H - h) / 2) x1 y1 x2 y2
        (by rw [hm, hmode])
        (by rw [ht, hr]; exact hbound) hx hy hW hH hbx hby (by omega) (by omega)
      refine ⟨hsz.1, hsz.2, fun he => ?_, fun he => ?_⟩
      · rw [hsz.1]; omega
      · rw [hsz.2]; omega
  by_cases hn : (DPY.modes (c, log).1.mode).Width = w ∧ (DPY.modes (c, log).1.mode).Height = h
  · rw [EnsureSize_native_sized E X DPY w h hint (c, log) hn h0W h0H]
    have hWw : W = w := by rw [hmode] at hn; exact hn.1
    have hHh : H = h := by rw [hmode] at hn; exact hn.2
    subst hWw hHh
    refine ⟨nativeTarget E DPY c, rfl, nativeTarget_mode E DPY c, ?_, ?_, ?_, ?_, fun _ => rfl⟩
    all_goals
      simp only [nativeTarget, pendingConfig.SetPos, pendingConfig.setCompensation]
      split <;> [split; skip] <;> simp
  · rw [EnsureSize_resize E X DPY w h hint (c, log) hn, hmode,
      fit_native_bigger E DPY W H w h (c, log) hw hh hdW hdH]
    refine ⟨_, check_state E X DPY w h _, ?_, ?_, ?_, ?_, ?_, fun hX => ?_⟩
    · simp [pendingConfig.setCompensation]
    · simp [pendingConfig.setCompensation]
    · simp [pendingConfig.setCompensation]
    · simp [pendingConfig.setCompensation]
    · simp [pendingConfig.setCompensation]
    · apply check_returned
      · simpa [pendingConfig.setCompensation] using h0W
      · simpa [pendingConfig.setCompensation] using h0H
      · simpa [pendingConfig.setCompensation] using hX

/-- Witness of C16 amended: mode 2 is 1024 x 768, the target is 800 x 600 and
the allocation is 800 x 600. -/
theorem C16_EnsureSize_allocation_witness :
    ∃ rect,
      (pendingConfig.EnsureSize sampleEnv sampleServer sampleDisplay 800 600 EnsureSizeHintAuto
        (smallConfig, [])).state.1.appliedAllocation sampleEnv sampleDisplay = .ok rect ∧
      rect.Width = 800 ∧ rect.Height = 600 :=
  have key := (C16_EnsureSize_allocation sampleEnv sampleServer sampleDisplay smallConfig
    1024 768 800 600 EnsureSizeHintAuto [] 0 0 1024 768 rfl (by decide) (by decide) (by decide)
    (by decide) (by decide) (by decide) (by decide) (by decide) (by decide) (by decide)
    (by decide)).1
  key.elim fun rect hr => ⟨rect, hr.1, hr.2.2.2.1 (by decide), hr.2.2.2.2 (by decide)⟩

/-- C17 (the code departs from the claim): the clone of a config with three
gamma ramps of two levels has empty ramps, since `copy` writes into the nil
slices of the fresh struct; every other field is the one of the config. -/
theorem C17_clone_drops_gamma :
    gammaConfig.gammaRed = [0, 65535] ∧
    (ClonePendingConfig gammaConfig).gammaRed = [] ∧
    (ClonePendingConfig gammaConfig).gammaGreen = [] ∧
    (ClonePendingConfig gammaConfig).gammaBlue = [] ∧
    ClonePendingConfig gammaConfig = sampleConfig := by
  decide

end DDE
